import Mathlib

/-!
# BlueZ local GATT database (`src/gatt-database.c`)

A shallow embedding of the per-peer CCC state table, the GAP read callbacks,
the notification dispatcher, the Service Changed emitter and the
external-service registry of `src/gatt-database.c`, followed by theorems
about them.

Conventions of the embedding.

* Machine integers (`uint8_t`, `uint16_t`, `uint32_t`, `size_t`) are `Nat`.
* A `struct queue *` is the list of its entries, head first.
* A pointer into the peer-state table (`struct device_state *`,
  `struct ccc_state *`) is the first entry matching the key it was looked up
  with; a store through such a pointer rewrites that entry in place.
* A `struct external_service *` is an address (`Nat`); the records live in an
  explicit heap (`daemon.objs`).
* Heap allocation (`new0`, `queue_new`, `g_strdup`) always succeeds, so the
  `NULL` branches that only guard allocation failure are not represented.
* A callback that ends in `gatt_db_attribute_read_result` /
  `gatt_db_attribute_write_result` returns the arguments of that call.
-/

namespace GattDatabase

/-! ## Constants -/

/-- Modelled from the spec: the ATT error code `INVALID_OFFSET`; its numeric
value is declared in `src/shared/att-types.h`, which is not among the sources
(Bluetooth Core value 0x07). -/
def BT_ATT_ERROR_INVALID_OFFSET : Nat := 0x07

/-- Modelled from the spec: the ATT error code `INVALID_ATTRIBUTE_VALUE_LEN`;
declared in `src/shared/att-types.h` (Bluetooth Core value 0x0D). -/
def BT_ATT_ERROR_INVALID_ATTRIBUTE_VALUE_LEN : Nat := 0x0d

/-- Modelled from the spec: the ATT error code `UNLIKELY_ERROR`; declared in
`src/shared/att-types.h` (Bluetooth Core value 0x0E). -/
def BT_ATT_ERROR_UNLIKELY : Nat := 0x0e

/-- The 16-bit UUID of the GAP service (`#define UUID_GAP 0x1800`). -/
def UUID_GAP : Nat := 0x1800

/-- The 16-bit UUID of the GATT service (`#define UUID_GATT 0x1801`). -/
def UUID_GATT : Nat := 0x1801

/-! ## Queues (`src/shared/queue.h`) -/

/-- Modelled from the spec: `queue_find` of `src/shared/queue.c` (not among the
sources) returns the first entry, head first, that the match function
accepts. -/
def queue_find {α : Type} (queue : List α) (function : α → Bool) : Option α :=
  queue.find? function

/-- Modelled from the spec: `queue_push_tail` of `src/shared/queue.c` appends
one entry at the tail. -/
def queue_push_tail {α : Type} (queue : List α) (data : α) : List α :=
  queue ++ [data]

/-- Modelled from the spec: `queue_remove_all` of `src/shared/queue.c` removes
(and destroys) every entry the match function accepts and keeps the others in
order. -/
def queue_remove_all {α : Type} (queue : List α) (function : α → Bool) : List α :=
  queue.filter (fun data => !function data)

/-- Modelled from the spec: `queue_remove` of `src/shared/queue.c` unlinks the
first entry whose data pointer equals the given one. -/
def queue_remove {α : Type} [DecidableEq α] (queue : List α) (data : α) : List α :=
  queue.erase data

/-- A store through the pointer that `queue_find queue function` returned: the
first entry accepted by `function` is replaced by `store` of it. -/
def queue_store {α : Type} (queue : List α) (function : α → Bool) (store : α → α) : List α :=
  match queue with
  | [] => []
  | data :: rest =>
    if function data then store data :: rest
    else data :: queue_store rest function store

/-! ## Peer addresses (`lib/bluetooth.h`) -/

/-- The 6-byte device address `bdaddr_t` (`uint8_t b[6]`). -/
structure bdaddr_t where
  b0 : Nat
  b1 : Nat
  b2 : Nat
  b3 : Nat
  b4 : Nat
  b5 : Nat
  deriving DecidableEq, Repr

/-- The bytes of an address in memory order. -/
def bdaddr_t.bytes (a : bdaddr_t) : List Nat := [a.b0, a.b1, a.b2, a.b3, a.b4, a.b5]

/-- Modelled from the spec: `memcmp` of the C library over two byte strings of
the same length: the difference of the first pair of bytes that differ, 0 when
there is none. -/
def memcmp : List Nat → List Nat → Int
  | x :: xs, y :: ys => if x = y then memcmp xs ys else (x : Int) - (y : Int)
  | _, _ => 0

/-- Modelled from the spec: `bacmp` of `lib/bluetooth.h` (not among the
sources) is `memcmp` over the six address bytes ("full 48-bit address
comparison"). -/
def bacmp (ba1 ba2 : bdaddr_t) : Int := memcmp ba1.bytes ba2.bytes

/-! ## The peer-state table -/

/-- One CCC entry (`struct ccc_state`): `value0`, `value1` are `value[0]`,
`value[1]`. -/
structure ccc_state where
  handle : Nat
  value0 : Nat
  value1 : Nat
  deriving DecidableEq, Repr

/-- One peer entry (`struct device_state`). -/
structure device_state where
  bdaddr : bdaddr_t
  bdaddr_type : Nat
  ccc_states : List ccc_state
  deriving DecidableEq, Repr

/-- The lookup key (`struct device_info`). -/
structure device_info where
  bdaddr : bdaddr_t
  bdaddr_type : Nat
  deriving DecidableEq, Repr

def dev_state_match (dev_state : device_state) (dev_info : device_info) : Bool :=
  bacmp dev_state.bdaddr dev_info.bdaddr == 0 &&
    dev_state.bdaddr_type == dev_info.bdaddr_type

def find_device_state (device_states : List device_state) (bdaddr : bdaddr_t)
    (bdaddr_type : Nat) : Option device_state :=
  let dev_info : device_info := ⟨bdaddr, bdaddr_type⟩
  queue_find device_states (fun dev_state => dev_state_match dev_state dev_info)

def ccc_state_match (ccc : ccc_state) (handle : Nat) : Bool :=
  ccc.handle == handle

def find_ccc_state (dev_state : device_state) (handle : Nat) : Option ccc_state :=
  queue_find dev_state.ccc_states (fun ccc => ccc_state_match ccc handle)

def device_state_create (bdaddr : bdaddr_t) (bdaddr_type : Nat) : device_state :=
  { bdaddr := bdaddr, bdaddr_type := bdaddr_type, ccc_states := [] }

/-- A store through the `struct device_state *` that `find_device_state`
returns for this key. -/
def device_state_store (device_states : List device_state) (bdaddr : bdaddr_t)
    (bdaddr_type : Nat) (store : device_state → device_state) : List device_state :=
  queue_store device_states
    (fun dev_state => dev_state_match dev_state ⟨bdaddr, bdaddr_type⟩) store

/-- A store through the `struct ccc_state *` that `find_ccc_state` returns for
this handle in the peer entry of this key. -/
def ccc_state_store (device_states : List device_state) (bdaddr : bdaddr_t)
    (bdaddr_type : Nat) (handle : Nat) (store : ccc_state → ccc_state) :
    List device_state :=
  device_state_store device_states bdaddr bdaddr_type (fun dev_state =>
    { dev_state with
      ccc_states := queue_store dev_state.ccc_states
        (fun ccc => ccc_state_match ccc handle) store })

/-- The table after the call, and the entry the returned pointer designates. -/
def get_device_state (device_states : List device_state) (bdaddr : bdaddr_t)
    (bdaddr_type : Nat) : List device_state × device_state :=
  match find_device_state device_states bdaddr bdaddr_type with
  | some dev_state => (device_states, dev_state)
  | none =>
    let dev_state := device_state_create bdaddr bdaddr_type
    (queue_push_tail device_states dev_state, dev_state)

/-- The table after the call, and the entry the returned pointer designates. -/
def get_ccc_state (device_states : List device_state) (bdaddr : bdaddr_t)
    (bdaddr_type : Nat) (handle : Nat) : List device_state × ccc_state :=
  let (device_states, dev_state) := get_device_state device_states bdaddr bdaddr_type
  match find_ccc_state dev_state handle with
  | some ccc => (device_states, ccc)
  | none =>
    let ccc : ccc_state := { handle := handle, value0 := 0, value1 := 0 }
    (device_state_store device_states bdaddr bdaddr_type (fun dev_state =>
        { dev_state with ccc_states := queue_push_tail dev_state.ccc_states ccc }),
      ccc)

/-! ## Attributes, adapter and database -/

/-- Modelled from the spec: a `struct gatt_db_attribute` of
`src/shared/gatt-db.c` (not among the sources) as far as this file reads it:
its 16-bit handle and "a back-reference to the containing service range". -/
structure gatt_db_attribute where
  handle : Nat
  start_handle : Nat
  end_handle : Nat
  deriving DecidableEq, Repr

/-- Modelled from the spec: `gatt_db_attribute_get_handle` of
`src/shared/gatt-db.c`: the handle of the attribute, 0 for a `NULL`
attribute. -/
def gatt_db_attribute_get_handle (attrib : Option gatt_db_attribute) : Nat :=
  match attrib with
  | none => 0
  | some a => a.handle

/-- Modelled from the spec: `gatt_db_attribute_get_service_handles` of
`src/shared/gatt-db.c` (`service_range(service_ref) → (start, end)`): fails on
a `NULL` attribute, otherwise yields the range of the containing service. -/
def gatt_db_attribute_get_service_handles (attrib : Option gatt_db_attribute) :
    Option (Nat × Nat) :=
  match attrib with
  | none => none
  | some a => some (a.start_handle, a.end_handle)

/-- Modelled from the spec: the adapter-owned device object (`struct
btd_device` of `src/device.c`, not among the sources), identified by the peer
key it was resolved from. -/
structure btd_device where
  bdaddr : bdaddr_t
  bdaddr_type : Nat
  deriving DecidableEq, Repr

/-- Modelled from the spec: the adapter (`struct btd_adapter` of
`src/adapter.c`, not among the sources) as far as this file uses it: the
friendly name as the bytes before the terminating NUL, the class of device,
and which peer keys resolve to a device object. -/
structure btd_adapter where
  name : List Nat
  dev_class : Nat
  resolves : bdaddr_t → Nat → Bool

/-- Modelled from the spec: `btd_adapter_get_name`. -/
def btd_adapter_get_name (adapter : btd_adapter) : List Nat := adapter.name

/-- Modelled from the spec: `btd_adapter_get_class`. -/
def btd_adapter_get_class (adapter : btd_adapter) : Nat := adapter.dev_class

/-- Modelled from the spec: `btd_adapter_get_device` "resolves the adapter and
device": the device object of the peer key, or `NULL`. -/
def btd_adapter_get_device (adapter : btd_adapter) (bdaddr : bdaddr_t)
    (bdaddr_type : Nat) : Option btd_device :=
  if adapter.resolves bdaddr bdaddr_type then some ⟨bdaddr, bdaddr_type⟩ else none

/-- Modelled from the spec: the length of a C string given as the bytes before
its terminating NUL. -/
def strlen (s : List Nat) : Nat := s.length

/-- Modelled from the spec: an ATT bearer (`struct bt_att`) as far as
`get_dst_info` reads it: the peer address and address type of its socket, or
nothing when the lookup through `bt_io_get` fails. -/
structure bt_att where
  dst : Option (bdaddr_t × Nat)

/-- The peer key of the bearer; `none` stands for the `false` return. -/
def get_dst_info (att : bt_att) : Option (bdaddr_t × Nat) := att.dst

/-- The arguments of the final `gatt_db_attribute_read_result (attrib, id,
error, value, len)`: `value` is `none` for `NULL`, otherwise the `len` bytes at
the pointer. -/
structure read_result where
  error : Nat
  value : Option (List Nat)
  len : Nat
  deriving DecidableEq, Repr

/-- The value bytes of a reply: none for a `NULL` value pointer, otherwise the
`len` bytes at the pointer. -/
def read_result.bytes (r : read_result) : List Nat :=
  match r.value with
  | none => []
  | some value => value.take r.len

def gap_device_name_read_cb (adapter : btd_adapter) (offset : Nat) : read_result :=
  let device_name := btd_adapter_get_name adapter
  let len := strlen device_name
  if offset > len then
    { error := BT_ATT_ERROR_INVALID_OFFSET, value := none, len := len }
  else
    let len := len - offset
    { error := 0,
      value := if len ≠ 0 then some (device_name.drop offset) else none,
      len := len }

def gap_appearance_read_cb (adapter : btd_adapter) (offset : Nat) : read_result :=
  let len := 2
  let dev_class := btd_adapter_get_class adapter
  if offset > 2 then
    { error := BT_ATT_ERROR_INVALID_OFFSET, value := none, len := len }
  else
    let appearance : List Nat :=
      [(dev_class &&& 0x00ff) % 256, ((dev_class >>> 8) &&& 0x001f) % 256]
    let len := len - offset
    { error := 0,
      value := if len ≠ 0 then some (appearance.drop offset) else none,
      len := len }

/-- The table after the call and the arguments of the final
`gatt_db_attribute_read_result`. `handle` is
`gatt_db_attribute_get_handle (attrib)`. -/
def gatt_ccc_read_cb (device_states : List device_state) (handle : Nat)
    (offset : Nat) (att : bt_att) : List device_state × read_result :=
  if offset > 2 then
    (device_states, { error := BT_ATT_ERROR_INVALID_OFFSET, value := none, len := 0 })
  else
    match get_dst_info att with
    | none =>
      (device_states, { error := BT_ATT_ERROR_UNLIKELY, value := none, len := 0 })
    | some (bdaddr, bdaddr_type) =>
      let (device_states, ccc) := get_ccc_state device_states bdaddr bdaddr_type handle
      let len := 2 - offset
      (device_states,
        { error := 0,
          value := if len ≠ 0 then some ([ccc.value0, ccc.value1].drop offset) else none,
          len := len })

/-- The table after the call and the error code passed to the final
`gatt_db_attribute_write_result`. `value` is `none` for a `NULL` pointer,
otherwise the bytes at the pointer; `value[i]` reads byte `i` of them. -/
def gatt_ccc_write_cb (device_states : List device_state) (handle : Nat)
    (offset : Nat) (value : Option (List Nat)) (len : Nat) (att : bt_att) :
    List device_state × Nat :=
  match value with
  | none => (device_states, BT_ATT_ERROR_INVALID_ATTRIBUTE_VALUE_LEN)
  | some value =>
    if len ≠ 2 then (device_states, BT_ATT_ERROR_INVALID_ATTRIBUTE_VALUE_LEN)
    else if offset > 2 then (device_states, BT_ATT_ERROR_INVALID_OFFSET)
    else
      match get_dst_info att with
      | none => (device_states, BT_ATT_ERROR_UNLIKELY)
      | some (bdaddr, bdaddr_type) =>
        let (device_states, _) := get_ccc_state device_states bdaddr bdaddr_type handle
        (ccc_state_store device_states bdaddr bdaddr_type handle (fun ccc =>
            { ccc with value0 := value.getD 0 0, value1 := value.getD 1 0 }),
          0)

/-! ## Notifications and Service Changed -/

/-- The request of `struct notify`; the `database` field is passed beside
it. -/
structure notify where
  handle : Nat
  ccc_handle : Nat
  value : List Nat
  len : Nat
  indicate : Bool
  deriving DecidableEq, Repr

/-- One call into the server engine: `bt_gatt_server_send_notification` or
`bt_gatt_server_send_indication` on the GATT server of `device`. -/
inductive gatt_server_send where
  | notification (device : btd_device) (handle : Nat) (value : List Nat) (len : Nat)
  | indication (device : btd_device) (handle : Nat) (value : List Nat) (len : Nat)
  deriving DecidableEq, Repr

/-- The server-engine calls made for one peer entry. -/
def send_notification_to_device (adapter : btd_adapter) (device_state : device_state)
    (notify : notify) : List gatt_server_send :=
  match find_ccc_state device_state notify.ccc_handle with
  | none => []
  | some ccc =>
    if ccc.value0 = 0 || (notify.indicate && (ccc.value0 &&& 0x02) = 0) then []
    else
      match btd_adapter_get_device adapter device_state.bdaddr
          device_state.bdaddr_type with
      | none => []
      | some device =>
        if !notify.indicate then
          [gatt_server_send.notification device notify.handle notify.value notify.len]
        else
          [gatt_server_send.indication device notify.handle notify.value notify.len]

/-- Modelled from the spec: `queue_foreach` of `src/shared/queue.c` calls the
function on every entry, head first; here the calls' server-engine output is
collected in that order. -/
def queue_foreach_send {α : Type} (queue : List α)
    (function : α → List gatt_server_send) : List gatt_server_send :=
  match queue with
  | [] => []
  | data :: rest => function data ++ queue_foreach_send rest function

def send_notification_to_devices (adapter : btd_adapter)
    (device_states : List device_state) (handle : Nat) (value : List Nat)
    (len : Nat) (ccc_handle : Nat) (indicate : Bool) : List gatt_server_send :=
  let notify : notify :=
    { handle := handle, ccc_handle := ccc_handle, value := value, len := len,
      indicate := indicate }
  queue_foreach_send device_states (fun device_state =>
    send_notification_to_device adapter device_state notify)

/-- Modelled from the spec: `put_le16` of `src/shared/util.h` (not among the
sources) stores a 16-bit value as two bytes, least significant first. -/
def put_le16 (val : Nat) : List Nat := [val % 256, (val / 256) % 256]

/-- The database (`struct btd_gatt_database`), without the listening sockets
and the SDP record handles; the attribute store `db` and the `services` queue
are kept beside it in `daemon`. -/
structure btd_gatt_database where
  adapter : btd_adapter
  device_states : List device_state
  svc_chngd : Option gatt_db_attribute
  svc_chngd_ccc : Option gatt_db_attribute

def send_service_changed (database : btd_gatt_database)
    (attrib : Option gatt_db_attribute) : List gatt_server_send :=
  match gatt_db_attribute_get_service_handles attrib with
  | none => []
  | some (start, end_) =>
    let handle := gatt_db_attribute_get_handle database.svc_chngd
    let ccc_handle := gatt_db_attribute_get_handle database.svc_chngd_ccc
    if handle = 0 || ccc_handle = 0 then []
    else
      let value := put_le16 start ++ put_le16 end_
      send_notification_to_devices database.adapter database.device_states handle
        value 4 ccc_handle true

def gatt_db_service_added (database : btd_gatt_database)
    (attrib : Option gatt_db_attribute) : List gatt_server_send :=
  send_service_changed database attrib

def ccc_match_service (ccc : ccc_state) (attrib : Option gatt_db_attribute) : Bool :=
  match gatt_db_attribute_get_service_handles attrib with
  | none => false
  | some (start, end_) => decide (ccc.handle ≥ start) && decide (ccc.handle ≤ end_)

def remove_device_ccc (state : device_state) (attrib : Option gatt_db_attribute) :
    device_state :=
  { state with
    ccc_states := queue_remove_all state.ccc_states
      (fun ccc => ccc_match_service ccc attrib) }

/-- The database after the call and the server-engine calls it made. The
`queue_foreach` over the peer entries rewrites each of them in place. -/
def gatt_db_service_removed (database : btd_gatt_database)
    (attrib : Option gatt_db_attribute) : btd_gatt_database × List gatt_server_send :=
  let sent := send_service_changed database attrib
  ({ database with
      device_states := database.device_states.map (fun state =>
        remove_device_ccc state attrib) },
    sent)

/-! ## UUIDs (`lib/uuid.h`) -/

/-- Modelled from the spec: a Bluetooth UUID (`bt_uuid_t` of `lib/uuid.h`, not
among the sources): "16-, 32-, or 128-bit"; the 128-bit value is read as one
big-endian number. -/
inductive bt_uuid_t where
  | uuid16 (value : Nat)
  | uuid32 (value : Nat)
  | uuid128 (value : Nat)
  deriving DecidableEq, Repr

/-- Modelled from the spec: `bt_uuid16_create` of `lib/uuid.c`. -/
def bt_uuid16_create (value : Nat) : bt_uuid_t := bt_uuid_t.uuid16 value

/-- The Bluetooth base UUID 00000000-0000-1000-8000-00805F9B34FB. -/
def bluetooth_base_uuid : Nat := 0x0000000000001000800000805F9B34FB

/-- Modelled from the spec: `bt_uuid_to_uuid128` of `lib/uuid.c`: a 16- or
32-bit UUID is placed in the first four bytes of the base UUID. -/
def bt_uuid_to_uuid128 : bt_uuid_t → Nat
  | bt_uuid_t.uuid16 value => value * 2 ^ 96 + bluetooth_base_uuid
  | bt_uuid_t.uuid32 value => value * 2 ^ 96 + bluetooth_base_uuid
  | bt_uuid_t.uuid128 value => value

/-- Modelled from the spec: `bt_uuid_cmp` of `lib/uuid.c` compares the 128-bit
forms of the two UUIDs; 0 means equal. -/
def bt_uuid_cmp (uuid1 uuid2 : bt_uuid_t) : Int :=
  let u1 := bt_uuid_to_uuid128 uuid1
  let u2 := bt_uuid_to_uuid128 uuid2
  if u1 = u2 then 0 else if u1 < u2 then -1 else 1

/-! ## D-Bus (`gdbus/gdbus.h`) -/

/-- Modelled from the spec: a received method call (`DBusMessage`), identified
by its serial and sender. -/
structure DBusMessage where
  serial : Nat
  sender : String
  deriving DecidableEq, Repr

/-- Modelled from the spec: a reply handed to `g_dbus_send_message`: a method
return, or an error with its D-Bus error name and text. -/
inductive dbus_reply where
  | method_return (call : DBusMessage)
  | error (call : DBusMessage) (name : String) (text : String)
  deriving DecidableEq, Repr

/-- Modelled from the spec: `btd_error_failed` of `src/error.c` (not among the
sources) builds the `Failed(message)` error reply to a call; no reply can be
built for a `NULL` call. -/
def btd_error_failed (msg : Option DBusMessage) (str : String) : Option dbus_reply :=
  msg.map (fun call => dbus_reply.error call "org.bluez.Error.Failed" str)

/-- Modelled from the spec: `dbus_message_new_method_return`. -/
def dbus_message_new_method_return (msg : Option DBusMessage) : Option dbus_reply :=
  msg.map (fun call => dbus_reply.method_return call)

/-- Modelled from the spec: the value of a property as a `DBusMessageIter`
exposes it: a string, a boolean, or a value of another D-Bus type. -/
inductive dbus_value where
  | string (s : String)
  | boolean (b : Bool)
  | other (arg_type : Nat)
  deriving DecidableEq, Repr

/-- Modelled from the spec: a `GDBusProxy`: one object of the publisher with
its interface, path and properties. -/
structure GDBusProxy where
  iface : String
  path : String
  properties : List (String × dbus_value)
  deriving DecidableEq, Repr

/-- Modelled from the spec: `g_dbus_proxy_get_property` fails on a `NULL`
proxy or an unknown property name. -/
def g_dbus_proxy_get_property (proxy : Option GDBusProxy) (name : String) :
    Option dbus_value :=
  match proxy with
  | none => none
  | some p => p.properties.lookup name

/-- Modelled from the spec: a `GDBusClient` as far as this file sets it: which
of its watches are installed. -/
structure GDBusClient where
  disconnect_watch : Bool
  proxy_handlers : Bool
  ready_watch : Bool
  deriving DecidableEq, Repr

/-! ## The external-service registry -/

/-- One registration record (`struct external_service`); the `database`
back-pointer is the single database of `daemon`. -/
structure external_service where
  owner : String
  path : String
  reg : Option DBusMessage
  client : Option GDBusClient
  proxy : Option GDBusProxy
  attrib : Option gatt_db_attribute
  deriving DecidableEq, Repr

/-- Modelled from the spec: a service of the attribute store (`struct
gatt_db_service` of `src/shared/gatt-db.c`, not among the sources): type UUID,
primary flag, active bit and its contiguous handle range. -/
structure gatt_db_service where
  uuid : bt_uuid_t
  primary : Bool
  active : Bool
  start_handle : Nat
  num_handles : Nat
  deriving DecidableEq, Repr

/-- Modelled from the spec: the attribute store (`struct gatt_db`): its
services and the next handle to assign ("handles are assigned in ascending
order"). -/
structure gatt_db where
  services : List gatt_db_service
  next_handle : Nat
  deriving DecidableEq, Repr

/-- The state the registry code works on: the database with its peer table,
the attribute store, the `services` queue of record addresses, the records by
address, the pending `g_idle_add (service_free_idle_cb, service)` sources, the
replies passed to `g_dbus_send_message` and the server-engine calls, both
oldest first. -/
structure daemon where
  database : btd_gatt_database
  db : gatt_db
  services : List Nat
  objs : Nat → external_service
  idle : List Nat
  dbus_sent : List dbus_reply
  att_sent : List gatt_server_send

/-- Modelled from the spec: `gatt_db_add_service` ("the store reserves a
contiguous run"): fails for an empty run or one that leaves the 16-bit handle
space, otherwise appends an inactive service at `next_handle` and returns its
service declaration attribute. -/
def gatt_db_add_service (db : gatt_db) (uuid : bt_uuid_t) (primary : Bool)
    (num_handles : Nat) : gatt_db × Option gatt_db_attribute :=
  if num_handles = 0 ∨ db.next_handle = 0 ∨ db.next_handle + num_handles - 1 > 0xffff then
    (db, none)
  else
    ({ services := db.services ++
          [{ uuid := uuid, primary := primary, active := false,
             start_handle := db.next_handle, num_handles := num_handles }],
       next_handle := db.next_handle + num_handles },
      some { handle := db.next_handle, start_handle := db.next_handle,
             end_handle := db.next_handle + num_handles - 1 })

/-- Modelled from the spec: `gatt_db_service_set_active`: sets the active bit
of the service of `attrib` and runs the observer registered with
`gatt_db_register`: `gatt_db_service_added` for an activated service,
`gatt_db_service_removed` for a deactivated one. -/
def gatt_db_service_set_active (d : daemon) (attrib : Option gatt_db_attribute)
    (active : Bool) : daemon :=
  match attrib with
  | none => d
  | some a =>
    let db : gatt_db :=
      { d.db with
        services := d.db.services.map (fun s =>
          if s.start_handle = a.start_handle then { s with active := active } else s) }
    if active then
      { d with db := db, att_sent := d.att_sent ++ gatt_db_service_added d.database attrib }
    else
      let (database, sent) := gatt_db_service_removed d.database attrib
      { d with db := db, database := database, att_sent := d.att_sent ++ sent }

/-- Modelled from the spec: `gatt_db_remove_service`: nothing for a `NULL`
attribute; otherwise the service of `attrib` leaves the store and the
`gatt_db_service_removed` observer runs. -/
def gatt_db_remove_service (d : daemon) (attrib : Option gatt_db_attribute) : daemon :=
  match attrib with
  | none => d
  | some a =>
    let db : gatt_db :=
      { d.db with
        services := d.db.services.filter (fun s => s.start_handle != a.start_handle) }
    let (database, sent) := gatt_db_service_removed d.database attrib
    { d with db := db, database := database, att_sent := d.att_sent ++ sent }

/-- Modelled from the spec: `g_dbus_send_message` queues the message on the
bus connection; a `NULL` message is not sent. -/
def g_dbus_send_message (d : daemon) (message : Option dbus_reply) : daemon :=
  match message with
  | none => d
  | some m => { d with dbus_sent := d.dbus_sent ++ [m] }

/-- The record at `service` is freed: the unref and free calls after
`gatt_db_remove_service` send nothing and leave no state behind. -/
def service_free (d : daemon) (service : Nat) : daemon :=
  gatt_db_remove_service d (d.objs service).attrib

/-- The state after the idle callback and its return value (`FALSE`: the
source is not run again). -/
def service_free_idle_cb (d : daemon) (data : Nat) : daemon × Bool :=
  (service_free d data, false)

def service_remove_helper (d : daemon) (service : Nat) : daemon :=
  { d with
    services := queue_remove d.services service,
    idle := d.idle ++ [service] }

def client_disconnect_cb (d : daemon) (user_data : Nat) : daemon :=
  service_remove_helper d user_data

def service_remove (d : daemon) (service : Nat) : daemon :=
  let s := d.objs service
  let d : daemon :=
    { d with
      objs := Function.update d.objs service
        { s with client := s.client.map (fun c => { c with disconnect_watch := false }) } }
  service_remove_helper d service

/-- The UUID stored through `uuid` on success, `none` for the `false` return.
`bt_string_to_uuid` of `lib/uuid.c` is not among the sources and is taken as a
parameter (`none` for a negative return). -/
def parse_uuid (bt_string_to_uuid : String → Option bt_uuid_t)
    (proxy : Option GDBusProxy) : Option bt_uuid_t :=
  match g_dbus_proxy_get_property proxy "UUID" with
  | none => none
  | some (dbus_value.string uuidstr) =>
    match bt_string_to_uuid uuidstr with
    | none => none
    | some uuid =>
      if bt_uuid_cmp (bt_uuid16_create UUID_GAP) uuid = 0 then none
      else if bt_uuid_cmp (bt_uuid16_create UUID_GATT) uuid = 0 then none
      else some uuid
  | some _ => none

/-- The flag stored through `primary` on success, `none` for the `false`
return. -/
def parse_primary (proxy : Option GDBusProxy) : Option Bool :=
  match g_dbus_proxy_get_property proxy "Primary" with
  | none => none
  | some (dbus_value.boolean primary) => some primary
  | some _ => none

def create_service_entry (bt_string_to_uuid : String → Option bt_uuid_t)
    (d : daemon) (service : Nat) : daemon × Bool :=
  let s := d.objs service
  match parse_uuid bt_string_to_uuid s.proxy with
  | none => (d, false)
  | some uuid =>
    match parse_primary s.proxy with
    | none => (d, false)
    | some primary =>
      let (db, attrib) := gatt_db_add_service d.db uuid primary 1
      let d : daemon :=
        { d with db := db, objs := Function.update d.objs service { s with attrib := attrib } }
      match attrib with
      | none => (d, false)
      | some _ => (gatt_db_service_set_active d attrib true, true)

def client_ready_cb (bt_string_to_uuid : String → Option bt_uuid_t)
    (d : daemon) (service : Nat) : daemon :=
  let (d, fail, reply) : daemon × Bool × Option dbus_reply :=
    if (d.objs service).proxy.isNone then
      (d, true, btd_error_failed (d.objs service).reg "No service object found")
    else
      let (d, ok) := create_service_entry bt_string_to_uuid d service
      if !ok then
        (d, true, btd_error_failed (d.objs service).reg "Failed to create entry in database")
      else
        (d, false, dbus_message_new_method_return (d.objs service).reg)
  let d := g_dbus_send_message d reply
  let d : daemon :=
    { d with objs := Function.update d.objs service { d.objs service with reg := none } }
  if fail then service_remove d service else d

/-! ## The management interface -/

/-- The interface of a service root object (`#define GATT_SERVICE_IFACE`). -/
def GATT_SERVICE_IFACE : String := "org.bluez.GattService1"

/-- Modelled from the spec: one argument of a method call as a
`DBusMessageIter` exposes it: an object path, an array (whatever its element
type), or a value of another D-Bus type. -/
inductive dbus_arg where
  | object_path (path : String)
  | array
  | other (arg_type : Nat)
  deriving DecidableEq, Repr

/-- Modelled from the spec: `btd_error_invalid_args` of `src/error.c` (not
among the sources) builds the `InvalidArgs` error reply. -/
def btd_error_invalid_args (msg : Option DBusMessage) : Option dbus_reply :=
  msg.map (fun call => dbus_reply.error call "org.bluez.Error.InvalidArguments"
    "Invalid arguments in method call")

/-- Modelled from the spec: `btd_error_already_exists` of `src/error.c` builds
the `AlreadyExists` error reply. -/
def btd_error_already_exists (msg : Option DBusMessage) : Option dbus_reply :=
  msg.map (fun call => dbus_reply.error call "org.bluez.Error.AlreadyExists"
    "Already Exists")

/-- Modelled from the spec: `g_strcmp0` of GLib compares two strings; 0 means
equal. -/
def g_strcmp0 (str1 str2 : String) : Int :=
  if str1 = str2 then 0 else if str1 < str2 then -1 else 1

/-- Modelled from the spec: `g_str_has_prefix` of GLib: whether `str` begins
with `pfx`. -/
def g_str_has_prefix (str pfx : String) : Bool :=
  pfx.data.isPrefixOf str.data

def match_service_path (service : external_service) (path : String) : Bool :=
  g_strcmp0 service.path path == 0

def proxy_added_cb (d : daemon) (proxy : GDBusProxy) (user_data : Nat) : daemon :=
  let service := d.objs user_data
  if ! g_str_has_prefix proxy.path service.path then d
  else if g_strcmp0 proxy.iface GATT_SERVICE_IFACE ≠ 0 then d
  else
    { d with objs := Function.update d.objs user_data { service with proxy := some proxy } }

def proxy_removed_cb (d : daemon) (proxy : GDBusProxy) (user_data : Nat) : daemon :=
  let service := d.objs user_data
  if ! g_str_has_prefix proxy.path service.path then d
  else service_remove d user_data

/-- The record that `service_create` fills in, `none` for the `NULL` return.
The new client carries the three watches the function installs. -/
def service_create (msg : DBusMessage) (path : String) : Option external_service :=
  if ! g_str_has_prefix path "/" then none
  else
    some { owner := msg.sender, path := path, reg := some msg,
           client := some { disconnect_watch := true, proxy_handlers := true,
                            ready_watch := true },
           proxy := none, attrib := none }

/-- The state after the call and the returned reply (`none` for `NULL`: the
reply is deferred). `args` are the arguments of `msg` in order; `new` is the
address `new0` hands out for the record. -/
def manager_register_service (new : Nat) (d : daemon) (msg : DBusMessage)
    (args : List dbus_arg) : daemon × Option dbus_reply :=
  match args with
  | [] => (d, btd_error_invalid_args (some msg))
  | dbus_arg.object_path path :: rest =>
    if (queue_find d.services
        (fun service => match_service_path (d.objs service) path)).isSome then
      (d, btd_error_already_exists (some msg))
    else
      match rest with
      | dbus_arg.array :: _ =>
        match service_create msg path with
        | none => (d, btd_error_failed (some msg) "Failed to register service")
        | some service =>
          ({ d with
              objs := Function.update d.objs new service,
              services := queue_push_tail d.services new },
            none)
      | _ => (d, btd_error_invalid_args (some msg))
  | _ :: _ => (d, btd_error_invalid_args (some msg))

/-- The state after the call and the returned reply: the body is
`DBG ("UnregisterService"); /* TODO */ return NULL;`. -/
def manager_unregister_service (d : daemon) (_msg : DBusMessage)
    (_args : List dbus_arg) : daemon × Option dbus_reply :=
  (d, none)

/-- Modelled from the spec: one turn of the main loop on a pending idle
source: the callback runs, and the source is dropped when it returns
`FALSE`. -/
def g_idle_dispatch (d : daemon) (data : Nat) : daemon :=
  let (d', again) := service_free_idle_cb d data
  if again then d' else { d' with idle := d'.idle.erase data }

/-- The states of the registry that the entry points of this file can
produce, starting from an empty registry. The address of a new record is one
that no queued record occupies. -/
inductive registry_reachable : daemon → Prop where
  | init (d : daemon) (hs : d.services = []) (hi : d.idle = []) : registry_reachable d
  | register (new : Nat) (d : daemon) (msg : DBusMessage) (args : List dbus_arg)
      (h : registry_reachable d) (hfresh : new ∉ d.services) :
      registry_reachable (manager_register_service new d msg args).1
  | unregister (d : daemon) (msg : DBusMessage) (args : List dbus_arg)
      (h : registry_reachable d) :
      registry_reachable (manager_unregister_service d msg args).1
  | proxy_added (d : daemon) (proxy : GDBusProxy) (service : Nat)
      (h : registry_reachable d) : registry_reachable (proxy_added_cb d proxy service)
  | proxy_removed (d : daemon) (proxy : GDBusProxy) (service : Nat)
      (h : registry_reachable d) : registry_reachable (proxy_removed_cb d proxy service)
  | ready (bt_string_to_uuid : String → Option bt_uuid_t) (d : daemon) (service : Nat)
      (h : registry_reachable d) :
      registry_reachable (client_ready_cb bt_string_to_uuid d service)
  | disconnect (d : daemon) (service : Nat) (h : registry_reachable d) :
      registry_reachable (client_disconnect_cb d service)
  | idle (d : daemon) (data : Nat) (h : registry_reachable d) :
      registry_reachable (g_idle_dispatch d data)

/-! ## Histories of the peer-state table -/

/-- One event that reaches the peer-state table. -/
inductive table_event where
  | ccc_read (handle offset : Nat) (att : bt_att)
  | ccc_write (handle offset : Nat) (value : Option (List Nat)) (len : Nat) (att : bt_att)
  | notify (handle : Nat) (value : List Nat) (len : Nat) (ccc_handle : Nat)
      (indicate : Bool)
  | service_removed (attrib : Option gatt_db_attribute)

/-- The database after one event. `send_notification_to_devices` only reads
the table. -/
def table_step (database : btd_gatt_database) : table_event → btd_gatt_database
  | table_event.ccc_read handle offset att =>
    { database with
      device_states := (gatt_ccc_read_cb database.device_states handle offset att).1 }
  | table_event.ccc_write handle offset value len att =>
    { database with
      device_states :=
        (gatt_ccc_write_cb database.device_states handle offset value len att).1 }
  | table_event.notify _ _ _ _ _ => database
  | table_event.service_removed attrib => (gatt_db_service_removed database attrib).1

/-- The database after a sequence of events, oldest first. -/
def table_run (database : btd_gatt_database) (events : List table_event) :
    btd_gatt_database :=
  events.foldl table_step database

/-- The key of a peer entry. -/
def device_state.key (ds : device_state) : bdaddr_t × Nat := (ds.bdaddr, ds.bdaddr_type)

/-- No two peer entries share a key and no peer entry holds two CCC entries
with the same handle. -/
def table_is_map (device_states : List device_state) : Prop :=
  (device_states.map device_state.key).Nodup ∧
  ∀ ds ∈ device_states, (ds.ccc_states.map ccc_state.handle).Nodup

/-! ## Example inputs -/

/-- An adapter named "ACME-01" with class of device 0x001F00 on which every
peer key resolves to a device. -/
def example_adapter : btd_adapter :=
  { name := [0x41, 0x43, 0x4d, 0x45, 0x2d, 0x30, 0x31], dev_class := 0x001f00,
    resolves := fun _ _ => true }

/-- The peer 00:11:22:33:44:55. -/
def example_bdaddr : bdaddr_t := ⟨0x55, 0x44, 0x33, 0x22, 0x11, 0x00⟩

/-- The peer 00:11:22:33:44:66. -/
def example_bdaddr2 : bdaddr_t := ⟨0x66, 0x44, 0x33, 0x22, 0x11, 0x00⟩

/-- An ATT bearer to `example_bdaddr`, LE public. -/
def example_att : bt_att := ⟨some (example_bdaddr, 1)⟩

/-- A database whose GATT service occupies handles 6..9, with the Service
Changed value at 0x0008 and its CCC descriptor at 0x0009, and one peer that
has written `02 00` to that CCC and `01 00` to a CCC at handle 42. -/
def example_database : btd_gatt_database :=
  { adapter := example_adapter,
    device_states :=
      [{ bdaddr := example_bdaddr, bdaddr_type := 1,
         ccc_states := [⟨0x09, 0x02, 0x00⟩, ⟨42, 0x01, 0x00⟩] }],
    svc_chngd := some ⟨0x08, 0x06, 0x09⟩,
    svc_chngd_ccc := some ⟨0x09, 0x06, 0x09⟩ }

/-- A pending `RegisterService` call from the publisher `:1.42`. -/
def example_call : DBusMessage := { serial := 7, sender := ":1.42" }

/-- A record in the Registering state: reply pending, no root object seen yet,
no service in the attribute store. -/
def example_record : external_service :=
  { owner := ":1.42", path := "/acme/service0", reg := some example_call,
    client := some { disconnect_watch := true, proxy_handlers := true, ready_watch := true },
    proxy := none, attrib := none }

/-- The attribute store after start-up: GAP at 1..5 and GATT at 6..9. -/
def example_db : gatt_db :=
  { services :=
      [{ uuid := bt_uuid_t.uuid16 UUID_GAP, primary := true, active := true,
         start_handle := 1, num_handles := 5 },
       { uuid := bt_uuid_t.uuid16 UUID_GATT, primary := true, active := true,
         start_handle := 6, num_handles := 4 }],
    next_handle := 10 }

/-- A daemon whose registry holds the one Registering record, at address 1. -/
def example_daemon : daemon :=
  { database := example_database, db := example_db, services := [1],
    objs := fun _ => example_record, idle := [], dbus_sent := [], att_sent := [] }

/-- A root object that announces the GAP UUID in its 128-bit form. -/
def example_gap_proxy : GDBusProxy :=
  { iface := "org.bluez.GattService1", path := "/acme/service0",
    properties :=
      [("UUID", dbus_value.string "00001800-0000-1000-8000-00805f9b34fb"),
       ("Primary", dbus_value.boolean true)] }

/-- A UUID parser that knows the string of `example_gap_proxy`. -/
def example_string_to_uuid (s : String) : Option bt_uuid_t :=
  if s = "00001800-0000-1000-8000-00805f9b34fb" then
    some (bt_uuid_t.uuid128 0x0000180000001000800000805f9b34fb)
  else none

/-- The daemon of `example_daemon` after the root object of the record was
seen (`proxy_added_cb`). -/
def example_daemon_gap : daemon :=
  { example_daemon with
    objs := fun _ => { example_record with proxy := some example_gap_proxy } }

/-- A `RegisterService ("/acme/service0", {})` body. -/
def example_register_args : List dbus_arg :=
  [dbus_arg.object_path "/acme/service0", dbus_arg.array]

/-- A `RegisterService ("acme/service0", {})` body: the path is not absolute. -/
def example_relative_args : List dbus_arg :=
  [dbus_arg.object_path "acme/service0", dbus_arg.array]

/-- A daemon with an empty registry. -/
def example_daemon_empty : daemon :=
  { example_daemon with services := [] }

/-- A record in the Registered state, with its service at handle 10. -/
def example_registered_record : external_service :=
  { owner := ":1.42", path := "/acme/service0", reg := none,
    client := some { disconnect_watch := true, proxy_handlers := true, ready_watch := true },
    proxy := some { iface := "org.bluez.GattService1", path := "/acme/service0",
                    properties := [] },
    attrib := some ⟨10, 10, 10⟩ }

/-- A daemon whose registry holds the one Registered record, at address 1, and
whose attribute store holds its service. -/
def example_daemon_registered : daemon :=
  { example_daemon with
    db := { services := example_db.services ++
              [{ uuid := bt_uuid_t.uuid16 0x180f, primary := true, active := true,
                 start_handle := 10, num_handles := 1 }],
            next_handle := 11 },
    objs := fun _ => example_registered_record }

/-- An `UnregisterService ("/acme/service0")` call and body. -/
def example_unregister_call : DBusMessage := { serial := 9, sender := ":1.42" }

/-! ## Lemmas on queues and the peer-state table -/

theorem queue_find_store {α : Type} (queue : List α) (function : α → Bool)
    (store : α → α) (a : α) (h : queue_find queue function = some a)
    (hs : function (store a) = true) :
    queue_find (queue_store queue function store) function = some (store a) := by
  induction queue with
  | nil => simp [queue_find] at h
  | cons data rest ih =>
    unfold queue_store
    by_cases hd : function data = true
    · have ha : data = a := by
        simpa [queue_find, List.find?_cons, hd] using h
      subst ha
      simp [queue_find, List.find?_cons, hd, hs]
    · have hr : queue_find rest function = some a := by
        simpa [queue_find, List.find?_cons, hd] using h
      have := ih hr
      simp only [queue_find] at this
      simp [queue_find, List.find?_cons, hd, this]

theorem queue_find_push_tail_none {α : Type} (queue : List α) (function : α → Bool)
    (a : α) (h : queue_find queue function = none) (ha : function a = true) :
    queue_find (queue_push_tail queue a) function = some a := by
  simp only [queue_find] at h
  simp [queue_find, queue_push_tail, List.find?_append, h, ha]

theorem queue_find_push_tail_some {α : Type} (queue : List α) (function : α → Bool)
    (a b : α) (h : queue_find queue function = some b) :
    queue_find (queue_push_tail queue a) function = some b := by
  simp only [queue_find] at h
  simp [queue_find, queue_push_tail, List.find?_append, h]

theorem memcmp_self (xs : List Nat) : memcmp xs xs = 0 := by
  induction xs with
  | nil => simp [memcmp]
  | cons x xs ih => simp [memcmp, ih]

theorem bacmp_self (a : bdaddr_t) : bacmp a a = 0 := memcmp_self _

theorem dev_state_match_create (bdaddr : bdaddr_t) (bdaddr_type : Nat) :
    dev_state_match (device_state_create bdaddr bdaddr_type) ⟨bdaddr, bdaddr_type⟩ = true := by
  simp [dev_state_match, device_state_create, bacmp_self]

/-- After `get_ccc_state` the peer entry of the key and its CCC entry for the
handle are both found, and the CCC entry is the one returned. -/
theorem get_ccc_state_found (device_states : List device_state) (bdaddr : bdaddr_t)
    (bdaddr_type : Nat) (handle : Nat) :
    ∃ dev_state,
      find_device_state (get_ccc_state device_states bdaddr bdaddr_type handle).1
        bdaddr bdaddr_type = some dev_state ∧
      find_ccc_state dev_state handle =
        some (get_ccc_state device_states bdaddr bdaddr_type handle).2 := by
  unfold get_ccc_state get_device_state
  cases hfd : find_device_state device_states bdaddr bdaddr_type with
  | some ds =>
    simp only
    cases hfc : find_ccc_state ds handle with
    | some ccc => exact ⟨ds, hfd, hfc⟩
    | none =>
      simp only
      have hm : dev_state_match ds ⟨bdaddr, bdaddr_type⟩ = true := by
        have := List.find?_some (by simpa [find_device_state, queue_find] using hfd)
        simpa using this
      refine ⟨_, queue_find_store _ _ _ ds hfd ?_, ?_⟩
      · simpa [dev_state_match] using hm
      · exact queue_find_push_tail_none _ _ _ hfc (by simp [ccc_state_match])
  | none =>
    simp only
    have hfd2 : find_device_state
        (queue_push_tail device_states (device_state_create bdaddr bdaddr_type))
        bdaddr bdaddr_type = some (device_state_create bdaddr bdaddr_type) :=
      queue_find_push_tail_none _ _ _ hfd (dev_state_match_create bdaddr bdaddr_type)
    have hfc : find_ccc_state (device_state_create bdaddr bdaddr_type) handle = none := by
      simp [find_ccc_state, device_state_create, queue_find]
    rw [hfc]
    simp only
    refine ⟨_, queue_find_store _ _ _ _ hfd2 ?_, ?_⟩
    · simpa [dev_state_match] using dev_state_match_create bdaddr bdaddr_type
    · exact queue_find_push_tail_none _ _ _ hfc (by simp [ccc_state_match])

/-- When both lookups succeed, `get_ccc_state` changes nothing and returns the
entry found. -/
theorem get_ccc_state_of_found (device_states : List device_state) (bdaddr : bdaddr_t)
    (bdaddr_type : Nat) (handle : Nat) (dev_state : device_state) (ccc : ccc_state)
    (hd : find_device_state device_states bdaddr bdaddr_type = some dev_state)
    (hc : find_ccc_state dev_state handle = some ccc) :
    get_ccc_state device_states bdaddr bdaddr_type handle = (device_states, ccc) := by
  simp [get_ccc_state, get_device_state, hd, hc]

/-- A store through the CCC pointer is seen by the next lookup. -/
theorem find_ccc_state_store (device_states : List device_state) (bdaddr : bdaddr_t)
    (bdaddr_type : Nat) (handle : Nat) (store : ccc_state → ccc_state)
    (dev_state : device_state) (ccc : ccc_state)
    (hd : find_device_state device_states bdaddr bdaddr_type = some dev_state)
    (hc : find_ccc_state dev_state handle = some ccc)
    (hs : (store ccc).handle = handle) :
    ∃ dev_state',
      find_device_state (ccc_state_store device_states bdaddr bdaddr_type handle store)
        bdaddr bdaddr_type = some dev_state' ∧
      find_ccc_state dev_state' handle = some (store ccc) := by
  have hm : dev_state_match dev_state ⟨bdaddr, bdaddr_type⟩ = true := by
    have := List.find?_some (by simpa [find_device_state, queue_find] using hd)
    simpa using this
  refine ⟨_, queue_find_store _ _ _ dev_state hd ?_, ?_⟩
  · simpa [dev_state_match] using hm
  · exact queue_find_store _ _ _ ccc hc (by simp [ccc_state_match, hs])

theorem mem_queue_foreach_send {α : Type} (queue : List α)
    (function : α → List gatt_server_send) (ev : gatt_server_send) :
    ev ∈ queue_foreach_send queue function ↔ ∃ data ∈ queue, ev ∈ function data := by
  induction queue with
  | nil => simp [queue_foreach_send]
  | cons data rest ih => simp [queue_foreach_send, ih]

/-- What `send_notification_to_device` does for one peer entry when asked to
indicate. -/
theorem send_notification_to_device_indicate (adapter : btd_adapter)
    (ds : device_state) (handle ccc_handle : Nat) (value : List Nat) (len : Nat) :
    send_notification_to_device adapter ds
        { handle := handle, ccc_handle := ccc_handle, value := value, len := len,
          indicate := true } =
      match find_ccc_state ds ccc_handle with
      | none => []
      | some ccc =>
        if ccc.value0 &&& 0x02 = 0 then []
        else if adapter.resolves ds.bdaddr ds.bdaddr_type then
          [gatt_server_send.indication ⟨ds.bdaddr, ds.bdaddr_type⟩ handle value len]
        else [] := by
  unfold send_notification_to_device
  cases hf : find_ccc_state ds ccc_handle with
  | none => rfl
  | some ccc =>
    simp only
    by_cases h2 : ccc.value0 &&& 0x02 = 0
    · simp [h2]
    · have h0 : ccc.value0 ≠ 0 := by
        intro h
        rw [h] at h2
        simp at h2
      by_cases hr : adapter.resolves ds.bdaddr ds.bdaddr_type = true
      · simp [h2, h0, btd_adapter_get_device, hr]
      · simp [h2, h0, btd_adapter_get_device, hr]

/-- Everything `send_notification_to_devices` sends when asked to indicate. -/
theorem mem_send_indications (adapter : btd_adapter) (device_states : List device_state)
    (handle : Nat) (value : List Nat) (len : Nat) (ccc_handle : Nat)
    (ev : gatt_server_send) :
    ev ∈ send_notification_to_devices adapter device_states handle value len
        ccc_handle true ↔
      ∃ ds ∈ device_states, ∃ ccc, find_ccc_state ds ccc_handle = some ccc ∧
        ccc.value0 &&& 0x02 ≠ 0 ∧ adapter.resolves ds.bdaddr ds.bdaddr_type = true ∧
        ev = gatt_server_send.indication ⟨ds.bdaddr, ds.bdaddr_type⟩ handle value len := by
  unfold send_notification_to_devices
  rw [mem_queue_foreach_send]
  constructor
  · rintro ⟨ds, hds, hmem⟩
    rw [send_notification_to_device_indicate] at hmem
    cases hf : find_ccc_state ds ccc_handle with
    | none => simp [hf] at hmem
    | some ccc =>
      simp only [hf] at hmem
      by_cases h2 : ccc.value0 &&& 0x02 = 0
      · simp [h2] at hmem
      · by_cases hr2 : adapter.resolves ds.bdaddr ds.bdaddr_type = true
        · simp [h2, hr2] at hmem
          exact ⟨ds, hds, ccc, hf, h2, hr2, hmem⟩
        · simp [h2, hr2] at hmem
  · rintro ⟨ds, hds, ccc, hf, h2, hr, hev⟩
    refine ⟨ds, hds, ?_⟩
    rw [send_notification_to_device_indicate]
    simp [hf, h2, hr, hev]

theorem and_0xff (x : Nat) : x &&& 0xff = x % 256 :=
  Nat.and_pow_two_sub_one_eq_mod x 8

theorem and_0x1f (x : Nat) : x &&& 0x1f = x % 32 :=
  Nat.and_pow_two_sub_one_eq_mod x 5

theorem and_0x1fff (x : Nat) : x &&& 0x1fff = x % 8192 :=
  Nat.and_pow_two_sub_one_eq_mod x 13

theorem shiftRight_8 (x : Nat) : x >>> 8 = x / 256 :=
  Nat.shiftRight_eq_div_pow x 8

/-- A UUID property that parses to the GAP or GATT UUID, in any of its forms,
makes `parse_uuid` fail. -/
theorem parse_uuid_core (bt_string_to_uuid : String → Option bt_uuid_t)
    (proxy : GDBusProxy) (uuidstr : String) (uuid : bt_uuid_t)
    (hprop : g_dbus_proxy_get_property (some proxy) "UUID" = some (dbus_value.string uuidstr))
    (hparse : bt_string_to_uuid uuidstr = some uuid)
    (hcore : uuid = bt_uuid_t.uuid16 0x1800 ∨ uuid = bt_uuid_t.uuid32 0x1800 ∨
      uuid = bt_uuid_t.uuid128 0x0000180000001000800000805f9b34fb ∨
      uuid = bt_uuid_t.uuid16 0x1801 ∨ uuid = bt_uuid_t.uuid32 0x1801 ∨
      uuid = bt_uuid_t.uuid128 0x0000180100001000800000805f9b34fb) :
    parse_uuid bt_string_to_uuid (some proxy) = none := by
  simp only [parse_uuid, hprop, hparse]
  rcases hcore with h | h | h | h | h | h <;> subst h <;> decide

/-! ## Theorems -/

/-- C1. CCC round trip: when the peer address lookup of the bearer succeeds,
a CCC write of any two bytes at offset 0 replies success, and a read by the
same peer on the same handle at offset 0 then replies success with exactly
those two bytes. -/
theorem ccc_write_read_round_trip (device_states : List device_state) (handle : Nat)
    (b0 b1 : Nat) (att : bt_att) (bdaddr : bdaddr_t) (bdaddr_type : Nat)
    (hdst : get_dst_info att = some (bdaddr, bdaddr_type)) :
    (gatt_ccc_write_cb device_states handle 0 (some [b0, b1]) 2 att).2 = 0 ∧
    (gatt_ccc_read_cb (gatt_ccc_write_cb device_states handle 0 (some [b0, b1]) 2 att).1
        handle 0 att).2 = { error := 0, value := some [b0, b1], len := 2 } := by
  obtain ⟨ds, hd, hc⟩ := get_ccc_state_found device_states bdaddr bdaddr_type handle
  have hh : (get_ccc_state device_states bdaddr bdaddr_type handle).2.handle = handle := by
    have := List.find?_some (by simpa [find_ccc_state, queue_find] using hc)
    simpa [ccc_state_match] using this
  obtain ⟨ds', hd', hc'⟩ := find_ccc_state_store _ bdaddr bdaddr_type handle
    (fun ccc => { ccc with value0 := b0, value1 := b1 }) ds _ hd hc hh
  have hget := get_ccc_state_of_found _ bdaddr bdaddr_type handle ds' _ hd' hc'
  have hw : gatt_ccc_write_cb device_states handle 0 (some [b0, b1]) 2 att =
      (ccc_state_store (get_ccc_state device_states bdaddr bdaddr_type handle).1
        bdaddr bdaddr_type handle (fun ccc => { ccc with value0 := b0, value1 := b1 }), 0) := by
    simp [gatt_ccc_write_cb, hdst]
  rw [hw]
  refine ⟨rfl, ?_⟩
  simp [gatt_ccc_read_cb, hdst, hget]

/-- Witness of C1: peer 00:11:22:33:44:55 (LE public) writes `03 80` to handle
0x0010 of an empty table and reads it back. -/
theorem ccc_write_read_round_trip_witness :
    get_dst_info example_att = some (example_bdaddr, 1) ∧
    (gatt_ccc_write_cb [] 0x10 0 (some [0x03, 0x80]) 2 example_att).2 = 0 ∧
    (gatt_ccc_read_cb (gatt_ccc_write_cb [] 0x10 0 (some [0x03, 0x80]) 2 example_att).1
        0x10 0 example_att).2 =
      { error := 0, value := some [0x03, 0x80], len := 2 } :=
  ⟨rfl, ccc_write_read_round_trip [] 0x10 0x03 0x80 example_att example_bdaddr 1 rfl⟩

/-- C3. Indication fidelity: for every table, request and peer key that
resolves to a device, `send_notification_to_devices` called with
`indicate = true` sends the indication to that device if and only if the table
holds an entry of that key whose CCC entry for `ccc_handle` has bit 1 of
`value[0]` set; everything it sends is an indication of the requested handle
and value, never a notification. -/
theorem indication_fidelity (adapter : btd_adapter) (device_states : List device_state)
    (handle : Nat) (value : List Nat) (len : Nat) (ccc_handle : Nat)
    (bdaddr : bdaddr_t) (bdaddr_type : Nat) (device : btd_device)
    (hdev : btd_adapter_get_device adapter bdaddr bdaddr_type = some device) :
    (gatt_server_send.indication device handle value len ∈
        send_notification_to_devices adapter device_states handle value len
          ccc_handle true ↔
      ∃ ds ∈ device_states, ds.bdaddr = bdaddr ∧ ds.bdaddr_type = bdaddr_type ∧
        ∃ ccc, find_ccc_state ds ccc_handle = some ccc ∧ ccc.value0 &&& 0x02 ≠ 0) ∧
    (∀ ev ∈ send_notification_to_devices adapter device_states handle value len
          ccc_handle true,
      (∃ dev, ev = gatt_server_send.indication dev handle value len) ∧
      ∀ dev h v l, ev ≠ gatt_server_send.notification dev h v l) := by
  have hres : adapter.resolves bdaddr bdaddr_type = true ∧ device = ⟨bdaddr, bdaddr_type⟩ := by
    unfold btd_adapter_get_device at hdev
    by_cases hr : adapter.resolves bdaddr bdaddr_type = true
    · simp [hr] at hdev
      exact ⟨hr, hdev.symm⟩
    · simp [hr] at hdev
  obtain ⟨hr, hdevice⟩ := hres
  subst hdevice
  unfold send_notification_to_devices
  constructor
  · rw [mem_queue_foreach_send]
    constructor
    · rintro ⟨ds, hds, hmem⟩
      rw [send_notification_to_device_indicate] at hmem
      cases hf : find_ccc_state ds ccc_handle with
      | none => simp [hf] at hmem
      | some ccc =>
        simp only [hf] at hmem
        by_cases h2 : ccc.value0 &&& 0x02 = 0
        · simp [h2] at hmem
        · by_cases hr2 : adapter.resolves ds.bdaddr ds.bdaddr_type = true
          · simp [h2, hr2] at hmem
            exact ⟨ds, hds, hmem.1.symm, hmem.2.symm, ccc, hf, h2⟩
          · simp [h2, hr2] at hmem
    · rintro ⟨ds, hds, ha, ht, ccc, hf, h2⟩
      refine ⟨ds, hds, ?_⟩
      rw [send_notification_to_device_indicate]
      subst ha ht
      simp [hf, h2, hr]
  · intro ev hev
    rw [mem_queue_foreach_send] at hev
    obtain ⟨ds, _, hmem⟩ := hev
    rw [send_notification_to_device_indicate] at hmem
    cases hf : find_ccc_state ds ccc_handle with
    | none => simp [hf] at hmem
    | some ccc =>
      simp only [hf] at hmem
      by_cases h2 : ccc.value0 &&& 0x02 = 0
      · simp [h2] at hmem
      · by_cases hr2 : adapter.resolves ds.bdaddr ds.bdaddr_type = true
        · simp [h2, hr2] at hmem
          subst hmem
          exact ⟨⟨_, rfl⟩, by intro dev h v l; simp⟩
        · simp [h2, hr2] at hmem

/-- Witness of C3: of two peers, the one whose Service Changed CCC is `02 00`
is sent the indication. -/
theorem indication_fidelity_witness :
    btd_adapter_get_device example_adapter example_bdaddr 1 =
      some ⟨example_bdaddr, 1⟩ ∧
    (gatt_server_send.indication ⟨example_bdaddr, 1⟩ 0x08 [0x28, 0x00, 0x2c, 0x00] 4 ∈
      send_notification_to_devices example_adapter
        [{ bdaddr := example_bdaddr, bdaddr_type := 1,
           ccc_states := [{ handle := 0x09, value0 := 0x02, value1 := 0x00 }] },
         { bdaddr := example_bdaddr2, bdaddr_type := 1,
           ccc_states := [{ handle := 0x09, value0 := 0x01, value1 := 0x00 }] }]
        0x08 [0x28, 0x00, 0x2c, 0x00] 4 0x09 true) :=
  ⟨rfl, (indication_fidelity example_adapter _ 0x08 [0x28, 0x00, 0x2c, 0x00] 4 0x09
      example_bdaddr 1 ⟨example_bdaddr, 1⟩ rfl).1.2
    ⟨_, List.mem_cons_self _ _, rfl, rfl, _, rfl, by decide⟩⟩

/-- C4. CCC purge: after `gatt_db_service_removed` for a service whose handle
range is `[start, end]`, `find_ccc_state` finds nothing for any peer entry of
the table and any handle of that range. -/
theorem ccc_purge (database : btd_gatt_database) (attrib : Option gatt_db_attribute)
    (start end_ : Nat)
    (hrange : gatt_db_attribute_get_service_handles attrib = some (start, end_)) :
    ∀ ds ∈ (gatt_db_service_removed database attrib).1.device_states,
      ∀ h, start ≤ h → h ≤ end_ → find_ccc_state ds h = none := by
  intro ds hds h hs he
  simp only [gatt_db_service_removed, List.mem_map] at hds
  obtain ⟨ds0, _, rfl⟩ := hds
  simp only [find_ccc_state, queue_find, remove_device_ccc, queue_remove_all,
    List.find?_eq_none, List.mem_filter]
  rintro ccc ⟨_, hkeep⟩ hm
  have hh : ccc.handle = h := by simpa [ccc_state_match] using hm
  simp [ccc_match_service, hrange, hh, hs, he] at hkeep

/-- Witness of C4: removing the service 40..44 from a table whose only peer is
subscribed on handles 0x0009 and 42. -/
theorem ccc_purge_witness :
    gatt_db_attribute_get_service_handles (some ⟨40, 40, 44⟩) = some (40, 44) ∧
    ∀ ds ∈ (gatt_db_service_removed example_database (some ⟨40, 40, 44⟩)).1.device_states,
      ∀ h, 40 ≤ h → h ≤ 44 → find_ccc_state ds h = none :=
  ⟨rfl, ccc_purge example_database (some ⟨40, 40, 44⟩) 40 44 rfl⟩

/-- C5. Service Changed payload: when the Service Changed characteristic and
its CCC descriptor have (non-zero) handles, `send_service_changed` for a
service with 16-bit range `(start, end)` is the indication dispatch on the
Service Changed handle, filtered by the Service Changed CCC handle, with the 4
bytes `[start & 0xFF, start >> 8, end & 0xFF, end >> 8]`; everything it sends
is an indication with that handle and value; for 40..44 the bytes are
`28 00 2C 00`. -/
theorem service_changed_payload (database : btd_gatt_database)
    (attrib : Option gatt_db_attribute) (start end_ : Nat)
    (hrange : gatt_db_attribute_get_service_handles attrib = some (start, end_))
    (hstart : start < 65536) (hend : end_ < 65536)
    (hh : gatt_db_attribute_get_handle database.svc_chngd ≠ 0)
    (hc : gatt_db_attribute_get_handle database.svc_chngd_ccc ≠ 0) :
    send_service_changed database attrib =
      send_notification_to_devices database.adapter database.device_states
        (gatt_db_attribute_get_handle database.svc_chngd)
        [start &&& 0xff, start >>> 8, end_ &&& 0xff, end_ >>> 8] 4
        (gatt_db_attribute_get_handle database.svc_chngd_ccc) true ∧
    (∀ ev ∈ send_service_changed database attrib,
      ∃ dev, ev = gatt_server_send.indication dev
        (gatt_db_attribute_get_handle database.svc_chngd)
        [start &&& 0xff, start >>> 8, end_ &&& 0xff, end_ >>> 8] 4) ∧
    put_le16 40 ++ put_le16 44 = [0x28, 0x00, 0x2c, 0x00] := by
  have hv : put_le16 start ++ put_le16 end_ =
      [start &&& 0xff, start >>> 8, end_ &&& 0xff, end_ >>> 8] := by
    simp only [put_le16, and_0xff, shiftRight_8, List.cons_append, List.nil_append]
    rw [Nat.mod_eq_of_lt (a := start / 256) (by omega),
      Nat.mod_eq_of_lt (a := end_ / 256) (by omega)]
  have heq : send_service_changed database attrib =
      send_notification_to_devices database.adapter database.device_states
        (gatt_db_attribute_get_handle database.svc_chngd)
        [start &&& 0xff, start >>> 8, end_ &&& 0xff, end_ >>> 8] 4
        (gatt_db_attribute_get_handle database.svc_chngd_ccc) true := by
    simp only [send_service_changed, hrange, hv]
    simp [hh, hc]
  refine ⟨heq, ?_, by decide⟩
  intro ev hev
  rw [heq, mem_send_indications] at hev
  obtain ⟨ds, _, _, _, _, _, rfl⟩ := hev
  exact ⟨_, rfl⟩

/-- Witness of C5: the service 40..44 is added while one peer has written
`02 00` to the Service Changed CCC (handle 0x0009): it is sent `28 00 2C 00`
on the Service Changed handle 0x0008. -/
theorem service_changed_payload_witness :
    send_service_changed example_database (some ⟨40, 40, 44⟩) =
      [gatt_server_send.indication ⟨example_bdaddr, 1⟩ 0x08 [0x28, 0x00, 0x2c, 0x00] 4] :=
  (service_changed_payload example_database (some ⟨40, 40, 44⟩) 40 44 rfl
      (by decide) (by decide) (by decide) (by decide)).1.trans (by decide)

/-- C6. Device Name read: `gap_device_name_read_cb` replies `INVALID_OFFSET`
with no value bytes if and only if the offset exceeds the name length `n`;
otherwise it replies success with exactly the `n - offset` bytes of the name
from index `offset` on. For "ACME-01", offset 0 yields `41 43 4d 45 2d 30 31`
and offset 8 yields `INVALID_OFFSET`. -/
theorem device_name_read (adapter : btd_adapter) (offset : Nat) :
    (((gap_device_name_read_cb adapter offset).error = BT_ATT_ERROR_INVALID_OFFSET ∧
        (gap_device_name_read_cb adapter offset).bytes = []) ↔
      offset > adapter.name.length) ∧
    (gap_device_name_read_cb adapter offset =
      if offset > adapter.name.length then
        { error := BT_ATT_ERROR_INVALID_OFFSET, value := none, len := adapter.name.length }
      else
        { error := 0,
          value := if adapter.name.length - offset ≠ 0 then
            some (adapter.name.drop offset) else none,
          len := adapter.name.length - offset }) ∧
    ((gap_device_name_read_cb adapter offset).bytes =
      if offset > adapter.name.length then [] else adapter.name.drop offset) ∧
    (gap_device_name_read_cb example_adapter 0).error = 0 ∧
    (gap_device_name_read_cb example_adapter 0).bytes =
      [0x41, 0x43, 0x4d, 0x45, 0x2d, 0x30, 0x31] ∧
    gap_device_name_read_cb example_adapter 8 =
      { error := BT_ATT_ERROR_INVALID_OFFSET, value := none, len := 7 } := by
  have hshape : gap_device_name_read_cb adapter offset =
      if offset > adapter.name.length then
        { error := BT_ATT_ERROR_INVALID_OFFSET, value := none, len := adapter.name.length }
      else
        { error := 0,
          value := if adapter.name.length - offset ≠ 0 then
            some (adapter.name.drop offset) else none,
          len := adapter.name.length - offset } := by
    simp only [gap_device_name_read_cb, btd_adapter_get_name, strlen]
  have hbytes : (gap_device_name_read_cb adapter offset).bytes =
      if offset > adapter.name.length then [] else adapter.name.drop offset := by
    rw [hshape]
    by_cases ho : offset > adapter.name.length
    · simp [ho, read_result.bytes]
    · by_cases hz : adapter.name.length - offset = 0
      · have : adapter.name.length ≤ offset := by omega
        simp [ho, hz, read_result.bytes, List.drop_eq_nil_of_le this]
      · simp [ho, hz, read_result.bytes, List.take_of_length_le]
  refine ⟨?_, hshape, hbytes, by decide, by decide, by decide⟩
  by_cases ho : offset > adapter.name.length
  · simp [hshape, ho, read_result.bytes]
  · simp [hshape, ho, BT_ATT_ERROR_INVALID_OFFSET]

/-- C7. Appearance encoding: `gap_appearance_read_cb` at offset 0 replies
success with the two bytes `[c & 0xFF, (c >> 8) & 0x1F]` of the class of device
`c`, the little-endian form of `c & 0x1FFF`, whose upper three bits are zero;
for `c = 0x001F00` the bytes are `00 1F`. -/
theorem appearance_encoding (adapter : btd_adapter) :
    gap_appearance_read_cb adapter 0 =
      { error := 0,
        value := some [adapter.dev_class &&& 0xff, (adapter.dev_class >>> 8) &&& 0x1f],
        len := 2 } ∧
    (gap_appearance_read_cb adapter 0).bytes =
      [adapter.dev_class &&& 0xff, (adapter.dev_class >>> 8) &&& 0x1f] ∧
    (adapter.dev_class &&& 0xff) + 256 * ((adapter.dev_class >>> 8) &&& 0x1f) =
      adapter.dev_class &&& 0x1fff ∧
    (adapter.dev_class &&& 0xff) < 256 ∧ ((adapter.dev_class >>> 8) &&& 0x1f) < 32 ∧
    (adapter.dev_class &&& 0x1fff) < 0x2000 ∧
    (gap_appearance_read_cb example_adapter 0).bytes = [0x00, 0x1f] := by
  have hshape : gap_appearance_read_cb adapter 0 =
      { error := 0,
        value := some [adapter.dev_class &&& 0xff, (adapter.dev_class >>> 8) &&& 0x1f],
        len := 2 } := by
    have h1 : adapter.dev_class / 256 % 32 % 256 = adapter.dev_class / 256 % 32 := by omega
    simp only [gap_appearance_read_cb, btd_adapter_get_class, and_0xff, and_0x1f, shiftRight_8]
    simp [h1]
  refine ⟨hshape, ?_, ?_, ?_, ?_, ?_, by decide⟩
  · rw [hshape]
    simp [read_result.bytes]
  · rw [and_0xff, and_0x1f, and_0x1fff, shiftRight_8]
    omega
  · rw [and_0xff]
    omega
  · rw [and_0x1f]
    omega
  · rw [and_0x1fff]
    omega

/-- C8. CCC write length check: a write whose value is absent or whose length
is not 2 is answered with `INVALID_ATTRIBUTE_VALUE_LEN`, whatever the offset
and the bearer, and leaves the peer-state table as it was. -/
theorem ccc_write_length_check (device_states : List device_state) (handle : Nat)
    (offset : Nat) (value : Option (List Nat)) (len : Nat) (att : bt_att)
    (hbad : value = none ∨ len ≠ 2) :
    gatt_ccc_write_cb device_states handle offset value len att =
      (device_states, BT_ATT_ERROR_INVALID_ATTRIBUTE_VALUE_LEN) := by
  cases value with
  | none => rfl
  | some v =>
    have hl : len ≠ 2 := by
      cases hbad with
      | inl h => simp at h
      | inr h => exact h
    simp [gatt_ccc_write_cb, hl]

/-- Witness of C8: a 3-byte write at offset 5 to a table with one subscribed
peer. -/
theorem ccc_write_length_check_witness :
    ((some [0x01, 0x00, 0x00] : Option (List Nat)) = none ∨ 3 ≠ 2) ∧
    gatt_ccc_write_cb
        [{ bdaddr := example_bdaddr, bdaddr_type := 1, ccc_states := [⟨0x10, 0x02, 0x00⟩] }]
        0x10 5 (some [0x01, 0x00, 0x00]) 3 example_att =
      ([{ bdaddr := example_bdaddr, bdaddr_type := 1, ccc_states := [⟨0x10, 0x02, 0x00⟩] }],
        BT_ATT_ERROR_INVALID_ATTRIBUTE_VALUE_LEN) :=
  ⟨Or.inr (by decide), ccc_write_length_check _ 0x10 5 (some [0x01, 0x00, 0x00]) 3
    example_att (Or.inr (by decide))⟩

/-- C9, counterexample. A publisher disconnects while its registration reply
is pending: neither `client_disconnect_cb` nor the deferred `service_free`
sends anything, so the `RegisterService` call gets no `Failed` reply. -/
theorem publisher_disconnect_sends_no_reply :
    (example_daemon.objs 1).reg = some example_call ∧
    1 ∈ example_daemon.services ∧
    (client_disconnect_cb example_daemon 1).dbus_sent = [] ∧
    (service_free_idle_cb (client_disconnect_cb example_daemon 1) 1).1.dbus_sent = [] := by
  decide

/-- C9, amended. For a record whose registration reply is pending and that has
no service yet, `client_disconnect_cb` sends no reply and keeps the pending
call in the record, removes the record (and only it) from the registry and
queues its destruction; the deferred `service_free` sends no reply either, and
the attribute store is the same throughout, so it holds no service for the
record. -/
theorem publisher_disconnect_during_registration (d : daemon) (service : Nat)
    (msg : DBusMessage)
    (hreg : (d.objs service).reg = some msg)
    (hattrib : (d.objs service).attrib = none)
    (hnodup : d.services.Nodup) :
    (client_disconnect_cb d service).dbus_sent = d.dbus_sent ∧
    ((client_disconnect_cb d service).objs service).reg = some msg ∧
    service ∉ (client_disconnect_cb d service).services ∧
    (∀ other, other ≠ service →
      (other ∈ (client_disconnect_cb d service).services ↔ other ∈ d.services)) ∧
    (client_disconnect_cb d service).idle = d.idle ++ [service] ∧
    (client_disconnect_cb d service).db = d.db ∧
    (service_free_idle_cb (client_disconnect_cb d service) service).1.dbus_sent =
      d.dbus_sent ∧
    (service_free_idle_cb (client_disconnect_cb d service) service).1.db = d.db ∧
    service ∉ (service_free_idle_cb (client_disconnect_cb d service) service).1.services := by
  have hfree : (service_free_idle_cb (client_disconnect_cb d service) service).1 =
      client_disconnect_cb d service := by
    simp [service_free_idle_cb, service_free, client_disconnect_cb, service_remove_helper,
      hattrib, gatt_db_remove_service]
  rw [hfree]
  have hnot : service ∉ (client_disconnect_cb d service).services := by
    simpa [client_disconnect_cb, service_remove_helper, queue_remove] using
      hnodup.not_mem_erase
  refine ⟨rfl, hreg, hnot, ?_, rfl, rfl, rfl, rfl, hnot⟩
  intro other hne
  simp [client_disconnect_cb, service_remove_helper, queue_remove,
    List.mem_erase_of_ne hne]

/-- Witness of C9 (amended): the Registering record of `example_daemon`. -/
theorem publisher_disconnect_during_registration_witness :
    (example_daemon.objs 1).reg = some example_call ∧
    (example_daemon.objs 1).attrib = none ∧
    example_daemon.services.Nodup ∧
    (client_disconnect_cb example_daemon 1).dbus_sent = example_daemon.dbus_sent ∧
    1 ∉ (client_disconnect_cb example_daemon 1).services ∧
    (service_free_idle_cb (client_disconnect_cb example_daemon 1) 1).1.db =
      example_daemon.db :=
  have h := publisher_disconnect_during_registration example_daemon 1 example_call rfl rfl
    (by decide)
  ⟨rfl, rfl, by decide, h.1, h.2.2.1, h.2.2.2.2.2.2.2.1⟩

/-- C10. Core UUIDs are refused: for a record with a pending reply whose root
object's UUID property parses to the GAP or the GATT UUID (16-bit, 32-bit or
128-bit form), `client_ready_cb` leaves the attribute store as it was, sends
the `Failed` reply to the pending call, clears the reply token, removes the
record from the registry and queues its destruction. -/
theorem core_uuid_refused (bt_string_to_uuid : String → Option bt_uuid_t) (d : daemon)
    (service : Nat) (msg : DBusMessage) (proxy : GDBusProxy) (uuidstr : String)
    (uuid : bt_uuid_t)
    (hreg : (d.objs service).reg = some msg)
    (hproxy : (d.objs service).proxy = some proxy)
    (hprop : g_dbus_proxy_get_property (some proxy) "UUID" = some (dbus_value.string uuidstr))
    (hparse : bt_string_to_uuid uuidstr = some uuid)
    (hcore : uuid = bt_uuid_t.uuid16 0x1800 ∨ uuid = bt_uuid_t.uuid32 0x1800 ∨
      uuid = bt_uuid_t.uuid128 0x0000180000001000800000805f9b34fb ∨
      uuid = bt_uuid_t.uuid16 0x1801 ∨ uuid = bt_uuid_t.uuid32 0x1801 ∨
      uuid = bt_uuid_t.uuid128 0x0000180100001000800000805f9b34fb)
    (hnodup : d.services.Nodup) :
    (client_ready_cb bt_string_to_uuid d service).db = d.db ∧
    (client_ready_cb bt_string_to_uuid d service).dbus_sent =
      d.dbus_sent ++
        [dbus_reply.error msg "org.bluez.Error.Failed" "Failed to create entry in database"] ∧
    ((client_ready_cb bt_string_to_uuid d service).objs service).reg = none ∧
    ((client_ready_cb bt_string_to_uuid d service).objs service).attrib =
      (d.objs service).attrib ∧
    service ∉ (client_ready_cb bt_string_to_uuid d service).services ∧
    (client_ready_cb bt_string_to_uuid d service).idle = d.idle ++ [service] ∧
    (client_ready_cb bt_string_to_uuid d service).att_sent = d.att_sent := by
  have hp := parse_uuid_core bt_string_to_uuid proxy uuidstr uuid hprop hparse hcore
  have hcreate : create_service_entry bt_string_to_uuid d service = (d, false) := by
    simp [create_service_entry, hproxy, hp]
  have hnot : service ∉ d.services.erase service := hnodup.not_mem_erase
  simp [client_ready_cb, hproxy, hcreate, hreg, btd_error_failed, g_dbus_send_message,
    service_remove, service_remove_helper, queue_remove, hnot]

/-- Witness of C10: the record of `example_daemon_gap` announces
00001800-0000-1000-8000-00805f9b34fb. -/
theorem core_uuid_refused_witness :
    (client_ready_cb example_string_to_uuid example_daemon_gap 1).db = example_db ∧
    (client_ready_cb example_string_to_uuid example_daemon_gap 1).dbus_sent =
      [dbus_reply.error example_call "org.bluez.Error.Failed"
        "Failed to create entry in database"] ∧
    1 ∉ (client_ready_cb example_string_to_uuid example_daemon_gap 1).services :=
  have h := core_uuid_refused example_string_to_uuid example_daemon_gap 1 example_call
    example_gap_proxy "00001800-0000-1000-8000-00805f9b34fb"
    (bt_uuid_t.uuid128 0x0000180000001000800000805f9b34fb) rfl rfl rfl rfl
    (Or.inr (Or.inr (Or.inl rfl))) (by decide)
  ⟨h.1, h.2.1, h.2.2.2.2.1⟩

/-- C12, counterexample. `RegisterService ("acme/service0", {})` on an empty
registry: the reply is `Failed ("Failed to register service")`, which is not
the `InvalidArgs` error, and no record is added. -/
theorem relative_path_reply_is_failed :
    g_str_has_prefix "acme/service0" "/" = false ∧
    (manager_register_service 2 example_daemon_empty example_call
        example_relative_args).2 =
      some (dbus_reply.error example_call "org.bluez.Error.Failed"
        "Failed to register service") ∧
    (manager_register_service 2 example_daemon_empty example_call
        example_relative_args).2 ≠ btd_error_invalid_args (some example_call) ∧
    (manager_register_service 2 example_daemon_empty example_call
        example_relative_args).1.services = [] := by
  decide

/-- C12, amended. A `RegisterService` call whose object path does not begin
with "/", is not registered yet and is followed by an array argument is
answered with `Failed ("Failed to register service")` and leaves the whole
state, the registry included, as it was. -/
theorem relative_path_refused (new : Nat) (d : daemon) (msg : DBusMessage)
    (path : String) (rest : List dbus_arg)
    (hrel : g_str_has_prefix path "/" = false)
    (hnew : queue_find d.services
      (fun service => match_service_path (d.objs service) path) = none) :
    manager_register_service new d msg
        (dbus_arg.object_path path :: dbus_arg.array :: rest) =
      (d, btd_error_failed (some msg) "Failed to register service") := by
  simp [manager_register_service, hnew, service_create, hrel]

/-- Witness of C12 (amended): the call of the counterexample. -/
theorem relative_path_refused_witness :
    g_str_has_prefix "acme/service0" "/" = false ∧
    queue_find example_daemon_empty.services
      (fun service => match_service_path (example_daemon_empty.objs service)
        "acme/service0") = none ∧
    (manager_register_service 2 example_daemon_empty example_call
        [dbus_arg.object_path "acme/service0", dbus_arg.array]).2 =
      btd_error_failed (some example_call) "Failed to register service" :=
  ⟨by decide, rfl,
    congrArg Prod.snd (relative_path_refused 2 example_daemon_empty example_call
      "acme/service0" [] (by decide) rfl)⟩

/-- C13. Evaluation at the failing input: `UnregisterService
("/acme/service0")` on a registry that holds the Registered record of that
path returns no reply, queues no destruction, and leaves the record in the
registry and its service (handle 10) in the attribute store; the
publisher-initiated teardown of the same record removes both. -/
theorem unregister_service_does_nothing :
    (manager_unregister_service example_daemon_registered example_unregister_call
        [dbus_arg.object_path "/acme/service0"]).2 = none ∧
    (manager_unregister_service example_daemon_registered example_unregister_call
        [dbus_arg.object_path "/acme/service0"]).1.services = [1] ∧
    ((manager_unregister_service example_daemon_registered example_unregister_call
        [dbus_arg.object_path "/acme/service0"]).1.objs 1).path = "/acme/service0" ∧
    (manager_unregister_service example_daemon_registered example_unregister_call
        [dbus_arg.object_path "/acme/service0"]).1.idle = [] ∧
    ((manager_unregister_service example_daemon_registered example_unregister_call
        [dbus_arg.object_path "/acme/service0"]).1.db.services.map
          gatt_db_service.start_handle) = [1, 6, 10] ∧
    (g_idle_dispatch (client_disconnect_cb example_daemon_registered 1) 1).services = [] ∧
    ((g_idle_dispatch (client_disconnect_cb example_daemon_registered 1) 1).db.services.map
        gatt_db_service.start_handle) = [1, 6] := by
  decide

/-- C14. Service removal only deletes in-range CCC entries: after
`gatt_db_service_removed` for a service with range `[start, end]` the table is
the old one, entry by entry in the same order and with the same keys, where
each CCC list is the old list restricted to the entries with `handle < start`
or `handle > end`. -/
theorem service_removed_frame (database : btd_gatt_database)
    (attrib : Option gatt_db_attribute) (start end_ : Nat)
    (hrange : gatt_db_attribute_get_service_handles attrib = some (start, end_)) :
    (gatt_db_service_removed database attrib).1.device_states =
      database.device_states.map (fun ds =>
        { ds with
          ccc_states := ds.ccc_states.filter
            (fun ccc => decide (ccc.handle < start ∨ ccc.handle > end_)) }) ∧
    (gatt_db_service_removed database attrib).1.device_states.map device_state.key =
      database.device_states.map device_state.key := by
  have hfilter : ∀ ds : device_state, remove_device_ccc ds attrib =
      { ds with
        ccc_states := ds.ccc_states.filter
          (fun ccc => decide (ccc.handle < start ∨ ccc.handle > end_)) } := by
    intro ds
    simp only [remove_device_ccc, queue_remove_all, ccc_match_service, hrange]
    congr 1
    apply List.filter_congr
    intro ccc _
    by_cases h1 : ccc.handle < start
    · simp [h1]
    · by_cases h2 : ccc.handle > end_
      · simp [h2]
      · simp [h1, h2]
        omega
  constructor
  · simp only [gatt_db_service_removed]
    exact List.map_congr_left (fun ds _ => hfilter ds)
  · simp only [gatt_db_service_removed, List.map_map]
    apply List.map_congr_left
    intro ds _
    simp [remove_device_ccc, device_state.key]

/-- Witness of C14: removing the service 40..44 keeps the entry of handle
0x0009 and drops the entry of handle 42. -/
theorem service_removed_frame_witness :
    (gatt_db_service_removed example_database (some ⟨40, 40, 44⟩)).1.device_states =
      [{ bdaddr := example_bdaddr, bdaddr_type := 1,
         ccc_states := [⟨0x09, 0x02, 0x00⟩] }] :=
  (service_removed_frame example_database (some ⟨40, 40, 44⟩) 40 44 rfl).1.trans
    (by decide)

/-! ## Lemmas on the registry -/

/-- An operation that removes queue entries and keeps every record's path
keeps the paths of the queued records distinct. -/
theorem paths_nodup_of_frame (d d' : daemon)
    (hsub : d'.services.Sublist d.services)
    (hpath : ∀ p, (d'.objs p).path = (d.objs p).path)
    (h : (d.services.map (fun p => (d.objs p).path)).Nodup) :
    (d'.services.map (fun p => (d'.objs p).path)).Nodup := by
  have hf : (fun p => (d'.objs p).path) = (fun p => (d.objs p).path) := funext hpath
  rw [hf]
  exact h.sublist (hsub.map _)

theorem service_remove_frame (d : daemon) (service : Nat) :
    (service_remove d service).services = d.services.erase service ∧
    ∀ p, ((service_remove d service).objs p).path = (d.objs p).path := by
  refine ⟨rfl, ?_⟩
  intro p
  by_cases hp : p = service
  · subst hp
    simp [service_remove, service_remove_helper]
  · simp [service_remove, service_remove_helper, Function.update_noteq hp]

theorem gatt_db_service_set_active_frame (d : daemon) (attrib : Option gatt_db_attribute)
    (active : Bool) :
    (gatt_db_service_set_active d attrib active).services = d.services ∧
    (gatt_db_service_set_active d attrib active).objs = d.objs := by
  cases attrib with
  | none => exact ⟨rfl, rfl⟩
  | some a =>
    cases active with
    | true => exact ⟨rfl, rfl⟩
    | false => exact ⟨rfl, rfl⟩

theorem create_service_entry_frame (bt_string_to_uuid : String → Option bt_uuid_t)
    (d : daemon) (service : Nat) :
    (create_service_entry bt_string_to_uuid d service).1.services = d.services ∧
    ∀ p, ((create_service_entry bt_string_to_uuid d service).1.objs p).path =
      (d.objs p).path := by
  have hupd : ∀ (a : Option gatt_db_attribute) (p : Nat),
      (Function.update d.objs service { d.objs service with attrib := a } p).path =
        (d.objs p).path := by
    intro a p
    by_cases hp : p = service
    · subst hp
      simp
    · simp [Function.update_noteq hp]
  simp only [create_service_entry]
  split
  · exact ⟨rfl, fun _ => rfl⟩
  · split
    · exact ⟨rfl, fun _ => rfl⟩
    · split
      · exact ⟨rfl, hupd _⟩
      · refine ⟨?_, ?_⟩
        · rw [(gatt_db_service_set_active_frame _ _ _).1]
        · intro p
          rw [(gatt_db_service_set_active_frame _ _ _).2]
          exact hupd _ p

theorem client_ready_cb_frame (bt_string_to_uuid : String → Option bt_uuid_t)
    (d : daemon) (service : Nat) :
    (client_ready_cb bt_string_to_uuid d service).services.Sublist d.services ∧
    ∀ p, ((client_ready_cb bt_string_to_uuid d service).objs p).path =
      (d.objs p).path := by
  have hsend : ∀ (d0 : daemon) (reply : Option dbus_reply),
      (g_dbus_send_message d0 reply).services = d0.services ∧
      (g_dbus_send_message d0 reply).objs = d0.objs := by
    intro d0 reply
    cases reply <;> exact ⟨rfl, rfl⟩
  have hclear : ∀ (d0 : daemon) (p : Nat),
      (Function.update d0.objs service { d0.objs service with reg := none } p).path =
        (d0.objs p).path := by
    intro d0 p
    by_cases hp : p = service
    · subst hp
      simp
    · simp [Function.update_noteq hp]
  have hc := create_service_entry_frame bt_string_to_uuid d service
  unfold client_ready_cb
  by_cases hproxy : (d.objs service).proxy.isNone = true
  · simp only [hproxy, if_true]
    refine ⟨?_, ?_⟩
    · rw [(service_remove_frame _ _).1]
      simp only [(hsend _ _).1]
      exact List.erase_sublist _ _
    · intro p
      rw [(service_remove_frame _ _).2]
      simp only [(hsend _ _).2]
      exact hclear d p
  · simp only [hproxy]
    cases hok : (create_service_entry bt_string_to_uuid d service).2 with
    | false =>
      have hce : create_service_entry bt_string_to_uuid d service =
          ((create_service_entry bt_string_to_uuid d service).1, false) := by
        rw [← hok]
      rw [hce]
      simp only [Bool.false_eq_true, if_false, Bool.not_false, if_true]
      refine ⟨?_, ?_⟩
      · rw [(service_remove_frame _ _).1]
        simp only [(hsend _ _).1, hc.1]
        exact List.erase_sublist _ _
      · intro p
        rw [(service_remove_frame _ _).2]
        simp only [(hsend _ _).2]
        rw [hclear, hc.2]
    | true =>
      have hce : create_service_entry bt_string_to_uuid d service =
          ((create_service_entry bt_string_to_uuid d service).1, true) := by
        rw [← hok]
      rw [hce]
      simp only [Bool.false_eq_true, if_false, Bool.not_true]
      refine ⟨?_, ?_⟩
      · simp only [(hsend _ _).1, hc.1]
        exact List.Sublist.refl _
      · intro p
        simp only [(hsend _ _).2]
        rw [hclear, hc.2]

theorem proxy_added_cb_frame (d : daemon) (proxy : GDBusProxy) (service : Nat) :
    (proxy_added_cb d proxy service).services = d.services ∧
    ∀ p, ((proxy_added_cb d proxy service).objs p).path = (d.objs p).path := by
  simp only [proxy_added_cb]
  split
  · exact ⟨rfl, fun _ => rfl⟩
  · split
    · exact ⟨rfl, fun _ => rfl⟩
    · refine ⟨rfl, ?_⟩
      intro p
      by_cases hp : p = service
      · subst hp
        simp
      · simp [Function.update_noteq hp]

theorem proxy_removed_cb_frame (d : daemon) (proxy : GDBusProxy) (service : Nat) :
    (proxy_removed_cb d proxy service).services.Sublist d.services ∧
    ∀ p, ((proxy_removed_cb d proxy service).objs p).path = (d.objs p).path := by
  simp only [proxy_removed_cb]
  split
  · exact ⟨List.Sublist.refl _, fun _ => rfl⟩
  · refine ⟨?_, (service_remove_frame d service).2⟩
    rw [(service_remove_frame d service).1]
    exact List.erase_sublist _ _

theorem g_idle_dispatch_frame (d : daemon) (data : Nat) :
    (g_idle_dispatch d data).services = d.services ∧
    (g_idle_dispatch d data).objs = d.objs := by
  simp only [g_idle_dispatch, service_free_idle_cb, service_free, gatt_db_remove_service]
  cases (d.objs data).attrib <;> exact ⟨rfl, rfl⟩

/-- `manager_register_service` keeps the paths of the queued records distinct
when the new record gets an address that no queued record occupies. -/
theorem manager_register_service_paths (new : Nat) (d : daemon) (msg : DBusMessage)
    (args : List dbus_arg) (hfresh : new ∉ d.services)
    (h : (d.services.map (fun p => (d.objs p).path)).Nodup) :
    ((manager_register_service new d msg args).1.services.map
      (fun p => ((manager_register_service new d msg args).1.objs p).path)).Nodup := by
  unfold manager_register_service
  split
  · exact h
  · rename_i path rest
    split
    · exact h
    · rename_i hfind
      split
      · rename_i tail
        cases hc : service_create msg path with
        | none => exact h
        | some record =>
          simp only
          have hrec : record.path = path := by
            unfold service_create at hc
            split at hc
            · simp at hc
            · simp only [Option.some.injEq] at hc
              rw [← hc]
          have hnone : queue_find d.services
              (fun service => match_service_path (d.objs service) path) = none := by
            cases hq : queue_find d.services
                (fun service => match_service_path (d.objs service) path) with
            | none => rfl
            | some x => simp [hq] at hfind
          have hnot : ∀ p ∈ d.services, (d.objs p).path ≠ path := by
            intro p hp hpath
            simp only [queue_find, List.find?_eq_none] at hnone
            have := hnone p hp
            simp [match_service_path, g_strcmp0, hpath] at this
          have hold : d.services.map
              (fun p => (Function.update d.objs new record p).path) =
              d.services.map (fun p => (d.objs p).path) := by
            apply List.map_congr_left
            intro p hp
            have hne : p ≠ new := fun hpn => hfresh (hpn ▸ hp)
            simp [Function.update_noteq hne]
          simp only [queue_push_tail, List.map_append, List.map_cons, List.map_nil,
            Function.update_same, hold, hrec]
          rw [List.nodup_append]
          refine ⟨h, List.nodup_singleton _, ?_⟩
          intro a ha hb
          simp only [List.mem_singleton] at hb
          subst hb
          simp only [List.mem_map] at ha
          obtain ⟨p, hp, hpp⟩ := ha
          exact hnot p hp hpp
      · exact h
  · exact h

/-- In every state the entry points can produce, the queued records have
pairwise distinct object paths. -/
theorem registry_reachable_paths (d : daemon) (hd : registry_reachable d) :
    (d.services.map (fun p => (d.objs p).path)).Nodup := by
  induction hd with
  | init d hs hi => simp [hs]
  | register new d msg args _ hfresh ih =>
    exact manager_register_service_paths new d msg args hfresh ih
  | unregister d msg args _ ih => exact ih
  | proxy_added d proxy service _ ih =>
    have hf := proxy_added_cb_frame d proxy service
    exact paths_nodup_of_frame d _ (hf.1 ▸ List.Sublist.refl _) hf.2 ih
  | proxy_removed d proxy service _ ih =>
    have hf := proxy_removed_cb_frame d proxy service
    exact paths_nodup_of_frame d _ hf.1 hf.2 ih
  | ready bt_string_to_uuid d service _ ih =>
    have hf := client_ready_cb_frame bt_string_to_uuid d service
    exact paths_nodup_of_frame d _ hf.1 hf.2 ih
  | disconnect d service _ ih =>
    exact paths_nodup_of_frame d _ (List.erase_sublist _ _) (fun _ => rfl) ih
  | idle d data _ ih =>
    have hf := g_idle_dispatch_frame d data
    exact paths_nodup_of_frame d _ (hf.1 ▸ List.Sublist.refl _)
      (fun p => by rw [hf.2]) ih

/-- C11. Duplicate registration: a `RegisterService` call whose object path is
the path of a record already in the registry (whoever published it, so in
particular one with the same publisher and path) returns the `AlreadyExists`
error and leaves the whole state, the registry included, as it was; and in
every state the entry points can produce from an empty registry, no two queued
records have the same (publisher, object path). -/
theorem duplicate_registration (new : Nat) (d : daemon) (msg : DBusMessage)
    (path : String) (rest : List dbus_arg) (service : Nat)
    (hmem : service ∈ d.services) (hpath : (d.objs service).path = path) :
    manager_register_service new d msg (dbus_arg.object_path path :: rest) =
      (d, btd_error_already_exists (some msg)) ∧
    ∀ d', registry_reachable d' →
      (d'.services.map (fun p => ((d'.objs p).owner, (d'.objs p).path))).Nodup := by
  constructor
  · have hfind : (queue_find d.services
        (fun service => match_service_path (d.objs service) path)).isSome = true := by
      simp only [queue_find, List.find?_isSome]
      exact ⟨service, hmem, by simp [match_service_path, g_strcmp0, hpath]⟩
    simp [manager_register_service, hfind]
  · intro d' hd'
    have h := registry_reachable_paths d' hd'
    apply List.Nodup.of_map Prod.snd
    simpa [List.map_map, Function.comp_def] using h

/-- Witness of C11: a second `RegisterService ("/acme/service0", {})` while the
record of that path is in the registry. -/
theorem duplicate_registration_witness :
    (1 ∈ example_daemon.services ∧ (example_daemon.objs 1).path = "/acme/service0") ∧
    (manager_register_service 2 example_daemon example_call example_register_args).2 =
      some (dbus_reply.error example_call "org.bluez.Error.AlreadyExists"
        "Already Exists") ∧
    (manager_register_service 2 example_daemon example_call
        example_register_args).1.services = [1] :=
  have h := (duplicate_registration 2 example_daemon example_call "/acme/service0"
    [dbus_arg.array] 1 (by decide) rfl).1
  ⟨⟨by decide, rfl⟩, congrArg Prod.snd h, congrArg (fun r => r.1.services) h⟩

/-! ## Lemmas on peer keys and stores -/

theorem memcmp_eq_zero_iff (xs ys : List Nat) (hlen : xs.length = ys.length) :
    memcmp xs ys = 0 ↔ xs = ys := by
  induction xs generalizing ys with
  | nil =>
    cases ys with
    | nil => simp [memcmp]
    | cons y ys => simp at hlen
  | cons x xs ih =>
    cases ys with
    | nil => simp at hlen
    | cons y ys =>
      have hl : xs.length = ys.length := by simpa using hlen
      by_cases hxy : x = y
      · subst hxy
        simp [memcmp, ih ys hl]
      · have hne : (x : Int) - (y : Int) ≠ 0 := by omega
        simp [memcmp, hxy, hne]

theorem bacmp_eq_zero_iff (a b : bdaddr_t) : bacmp a b = 0 ↔ a = b := by
  rw [bacmp, memcmp_eq_zero_iff a.bytes b.bytes rfl]
  cases a
  cases b
  simp [bdaddr_t.bytes]

/-- The match function accepts an entry exactly when all six address bytes and
the address type are those of the key. -/
theorem dev_state_match_iff (ds : device_state) (bdaddr : bdaddr_t) (bdaddr_type : Nat) :
    dev_state_match ds ⟨bdaddr, bdaddr_type⟩ = true ↔
      ds.bdaddr = bdaddr ∧ ds.bdaddr_type = bdaddr_type := by
  simp [dev_state_match, bacmp_eq_zero_iff]

theorem find_device_state_some (device_states : List device_state) (bdaddr : bdaddr_t)
    (bdaddr_type : Nat) (ds : device_state)
    (h : find_device_state device_states bdaddr bdaddr_type = some ds) :
    ds ∈ device_states ∧ ds.bdaddr = bdaddr ∧ ds.bdaddr_type = bdaddr_type := by
  simp only [find_device_state, queue_find] at h
  refine ⟨List.mem_of_find?_eq_some h, ?_⟩
  have := List.find?_some h
  exact (dev_state_match_iff ds bdaddr bdaddr_type).1 (by simpa using this)

theorem find_device_state_none (device_states : List device_state) (bdaddr : bdaddr_t)
    (bdaddr_type : Nat)
    (h : find_device_state device_states bdaddr bdaddr_type = none) :
    (bdaddr, bdaddr_type) ∉ device_states.map device_state.key := by
  simp only [find_device_state, queue_find, List.find?_eq_none] at h
  intro hmem
  simp only [List.mem_map] at hmem
  obtain ⟨ds, hds, hkey⟩ := hmem
  apply h ds hds
  rw [dev_state_match_iff]
  simp only [device_state.key, Prod.mk.injEq] at hkey
  exact hkey

theorem find_ccc_state_none (ds : device_state) (handle : Nat)
    (h : find_ccc_state ds handle = none) :
    handle ∉ ds.ccc_states.map ccc_state.handle := by
  simp only [find_ccc_state, queue_find, List.find?_eq_none] at h
  intro hmem
  simp only [List.mem_map] at hmem
  obtain ⟨ccc, hccc, hh⟩ := hmem
  exact h ccc hccc (by simp [ccc_state_match, hh])

theorem map_queue_store {α β : Type} (queue : List α) (function : α → Bool)
    (store : α → α) (k : α → β) (hk : ∀ x, k (store x) = k x) :
    (queue_store queue function store).map k = queue.map k := by
  induction queue with
  | nil => rfl
  | cons data rest ih =>
    unfold queue_store
    by_cases hd : function data = true
    · simp [hd, hk]
    · simp [hd, ih]

theorem mem_queue_store {α : Type} (queue : List α) (function : α → Bool)
    (store : α → α) (x : α) (hx : x ∈ queue_store queue function store) :
    x ∈ queue ∨ ∃ y, queue_find queue function = some y ∧ x = store y := by
  induction queue with
  | nil => simp [queue_store] at hx
  | cons data rest ih =>
    unfold queue_store at hx
    by_cases hd : function data = true
    · simp only [hd, if_true, List.mem_cons] at hx
      cases hx with
      | inl h => exact Or.inr ⟨data, by simp [queue_find, hd], h⟩
      | inr h => exact Or.inl (List.mem_cons_of_mem _ h)
    · simp only [hd, Bool.false_eq_true, if_false, List.mem_cons] at hx
      cases hx with
      | inl h => exact Or.inl (h ▸ List.mem_cons_self _ _)
      | inr h =>
        cases ih h with
        | inl h' => exact Or.inl (List.mem_cons_of_mem _ h')
        | inr h' =>
          obtain ⟨y, hy, hxy⟩ := h'
          refine Or.inr ⟨y, ?_, hxy⟩
          simpa [queue_find, hd] using hy

/-- A store through a peer-entry pointer that keeps the key, and keeps the
handles of the entry distinct, keeps the table a map. -/
theorem table_is_map_device_state_store (device_states : List device_state)
    (bdaddr : bdaddr_t) (bdaddr_type : Nat) (store : device_state → device_state)
    (hk : ∀ ds, (store ds).key = ds.key)
    (hc : ∀ ds, find_device_state device_states bdaddr bdaddr_type = some ds →
      (ds.ccc_states.map ccc_state.handle).Nodup →
      ((store ds).ccc_states.map ccc_state.handle).Nodup)
    (h : table_is_map device_states) :
    table_is_map (device_state_store device_states bdaddr bdaddr_type store) := by
  refine ⟨?_, ?_⟩
  · rw [device_state_store, map_queue_store _ _ _ _ hk]
    exact h.1
  · intro ds hds
    cases mem_queue_store _ _ _ _ hds with
    | inl hmem => exact h.2 ds hmem
    | inr hex =>
      obtain ⟨y, hy, rfl⟩ := hex
      exact hc y hy (h.2 y (find_device_state_some _ _ _ _ hy).1)

theorem get_device_state_found (device_states : List device_state) (bdaddr : bdaddr_t)
    (bdaddr_type : Nat) :
    find_device_state (get_device_state device_states bdaddr bdaddr_type).1
        bdaddr bdaddr_type =
      some (get_device_state device_states bdaddr bdaddr_type).2 := by
  unfold get_device_state
  cases hfd : find_device_state device_states bdaddr bdaddr_type with
  | some ds => exact hfd
  | none =>
    exact queue_find_push_tail_none _ _ _ hfd (dev_state_match_create bdaddr bdaddr_type)

theorem table_is_map_get_device_state (device_states : List device_state)
    (bdaddr : bdaddr_t) (bdaddr_type : Nat) (h : table_is_map device_states) :
    table_is_map (get_device_state device_states bdaddr bdaddr_type).1 := by
  unfold get_device_state
  cases hfd : find_device_state device_states bdaddr bdaddr_type with
  | some ds => exact h
  | none =>
    simp only [queue_push_tail]
    refine ⟨?_, ?_⟩
    · rw [List.map_append, List.nodup_append]
      refine ⟨h.1, List.nodup_singleton _, ?_⟩
      intro k hk hk'
      simp only [List.map_cons, List.map_nil, List.mem_singleton] at hk'
      subst hk'
      exact find_device_state_none _ _ _ hfd hk
    · intro ds hds
      simp only [List.mem_append, List.mem_singleton] at hds
      cases hds with
      | inl hmem => exact h.2 ds hmem
      | inr heq =>
        subst heq
        simp [device_state_create]

theorem table_is_map_get_ccc_state (device_states : List device_state)
    (bdaddr : bdaddr_t) (bdaddr_type : Nat) (handle : Nat)
    (h : table_is_map device_states) :
    table_is_map (get_ccc_state device_states bdaddr bdaddr_type handle).1 := by
  have h1 := table_is_map_get_device_state device_states bdaddr bdaddr_type h
  have hf := get_device_state_found device_states bdaddr bdaddr_type
  unfold get_ccc_state
  generalize get_device_state device_states bdaddr bdaddr_type = r at h1 hf
  obtain ⟨T1, dev⟩ := r
  simp only at h1 hf ⊢
  cases hfc : find_ccc_state dev handle with
  | some ccc => exact h1
  | none =>
    simp only
    refine table_is_map_device_state_store T1 bdaddr bdaddr_type
      (fun dev_state =>
        { dev_state with
          ccc_states := queue_push_tail dev_state.ccc_states
            { handle := handle, value0 := 0, value1 := 0 } })
      (fun _ => rfl) ?_ h1
    intro ds hds hnodup
    have hdev : ds = dev := by
      rw [hf] at hds
      exact (Option.some.inj hds).symm
    subst hdev
    simp only [queue_push_tail, List.map_append, List.map_cons, List.map_nil]
    rw [List.nodup_append]
    refine ⟨hnodup, List.nodup_singleton _, ?_⟩
    intro k hk hk'
    simp only [List.mem_singleton] at hk'
    subst hk'
    exact find_ccc_state_none _ _ hfc hk

theorem table_is_map_ccc_state_store (device_states : List device_state)
    (bdaddr : bdaddr_t) (bdaddr_type : Nat) (handle : Nat) (store : ccc_state → ccc_state)
    (hs : ∀ ccc, (store ccc).handle = ccc.handle) (h : table_is_map device_states) :
    table_is_map (ccc_state_store device_states bdaddr bdaddr_type handle store) := by
  refine table_is_map_device_state_store device_states bdaddr bdaddr_type
    (fun dev_state =>
      { dev_state with
        ccc_states := queue_store dev_state.ccc_states
          (fun ccc => ccc_state_match ccc handle) store })
    (fun _ => rfl) ?_ h
  intro ds _ hnodup
  simp only
  rw [map_queue_store _ _ _ _ hs]
  exact hnodup

theorem table_is_map_read (device_states : List device_state) (handle offset : Nat)
    (att : bt_att) (h : table_is_map device_states) :
    table_is_map (gatt_ccc_read_cb device_states handle offset att).1 := by
  unfold gatt_ccc_read_cb
  split
  · exact h
  · split
    · exact h
    · exact table_is_map_get_ccc_state _ _ _ _ h

theorem table_is_map_write (device_states : List device_state) (handle offset : Nat)
    (value : Option (List Nat)) (len : Nat) (att : bt_att)
    (h : table_is_map device_states) :
    table_is_map (gatt_ccc_write_cb device_states handle offset value len att).1 := by
  unfold gatt_ccc_write_cb
  split
  · exact h
  · split
    · exact h
    · split
      · exact h
      · split
        · exact h
        · exact table_is_map_ccc_state_store _ _ _ _ _ (fun _ => rfl)
            (table_is_map_get_ccc_state _ _ _ _ h)

theorem table_is_map_removed (database : btd_gatt_database)
    (attrib : Option gatt_db_attribute) (h : table_is_map database.device_states) :
    table_is_map (gatt_db_service_removed database attrib).1.device_states := by
  simp only [gatt_db_service_removed]
  refine ⟨?_, ?_⟩
  · have hkeys : (database.device_states.map
        (fun state => remove_device_ccc state attrib)).map device_state.key =
        database.device_states.map device_state.key := by
      rw [List.map_map]
      exact List.map_congr_left (fun ds _ => rfl)
    rw [hkeys]
    exact h.1
  · intro ds hds
    simp only [List.mem_map] at hds
    obtain ⟨ds0, hds0, rfl⟩ := hds
    simp only [remove_device_ccc, queue_remove_all]
    exact (h.2 ds0 hds0).sublist ((List.filter_sublist _).map _)

theorem table_is_map_run (events : List table_event) (database : btd_gatt_database)
    (h : table_is_map database.device_states) :
    table_is_map (table_run database events).device_states := by
  induction events generalizing database with
  | nil => exact h
  | cons ev rest ih =>
    simp only [table_run, List.foldl_cons]
    apply ih
    cases ev with
    | ccc_read handle offset att => exact table_is_map_read _ _ _ _ h
    | ccc_write handle offset value len att => exact table_is_map_write _ _ _ _ _ _ h
    | notify handle value len ccc_handle indicate => exact h
    | service_removed attrib => exact table_is_map_removed _ _ h

/-- C15. The peer-state table is a map: after every sequence of CCC reads, CCC
writes, notification dispatches and service-removed events on an empty table,
the keys of the peer entries are pairwise distinct and so are the handles of
the CCC entries of each peer entry; the match function accepts an entry
exactly when all six address bytes and the address type equal those of the
key, so a lookup returns an entry of the key asked for and lookups of two
different keys never return the same entry. -/
theorem peer_state_table_is_map (adapter : btd_adapter)
    (svc_chngd svc_chngd_ccc : Option gatt_db_attribute) (events : List table_event) :
    ((table_run { adapter := adapter, device_states := [], svc_chngd := svc_chngd,
                  svc_chngd_ccc := svc_chngd_ccc } events).device_states.map
        device_state.key).Nodup ∧
    (∀ ds ∈ (table_run { adapter := adapter, device_states := [], svc_chngd := svc_chngd,
                         svc_chngd_ccc := svc_chngd_ccc } events).device_states,
      (ds.ccc_states.map ccc_state.handle).Nodup) ∧
    (∀ (ds : device_state) (bdaddr : bdaddr_t) (bdaddr_type : Nat),
      dev_state_match ds ⟨bdaddr, bdaddr_type⟩ = true ↔
        ds.bdaddr.b0 = bdaddr.b0 ∧ ds.bdaddr.b1 = bdaddr.b1 ∧ ds.bdaddr.b2 = bdaddr.b2 ∧
        ds.bdaddr.b3 = bdaddr.b3 ∧ ds.bdaddr.b4 = bdaddr.b4 ∧ ds.bdaddr.b5 = bdaddr.b5 ∧
        ds.bdaddr_type = bdaddr_type) ∧
    (∀ (bdaddr bdaddr' : bdaddr_t) (bdaddr_type bdaddr_type' : Nat) (ds ds' : device_state),
      find_device_state
          (table_run { adapter := adapter, device_states := [], svc_chngd := svc_chngd,
                       svc_chngd_ccc := svc_chngd_ccc } events).device_states
          bdaddr bdaddr_type = some ds →
      find_device_state
          (table_run { adapter := adapter, device_states := [], svc_chngd := svc_chngd,
                       svc_chngd_ccc := svc_chngd_ccc } events).device_states
          bdaddr' bdaddr_type' = some ds' →
      (bdaddr ≠ bdaddr' ∨ bdaddr_type ≠ bdaddr_type') →
      (ds.bdaddr = bdaddr ∧ ds.bdaddr_type = bdaddr_type) ∧ ds ≠ ds') := by
  have hmap := table_is_map_run events
    { adapter := adapter, device_states := [], svc_chngd := svc_chngd,
      svc_chngd_ccc := svc_chngd_ccc }
    ⟨by simp, by simp⟩
  refine ⟨hmap.1, hmap.2, ?_, ?_⟩
  · intro ds bdaddr bdaddr_type
    rw [dev_state_match_iff]
    obtain ⟨a, t, c⟩ := ds
    cases a
    cases bdaddr
    simp only [bdaddr_t.mk.injEq]
    tauto
  · intro bdaddr bdaddr' bdaddr_type bdaddr_type' ds ds' h1 h2 hne
    have k1 := (find_device_state_some _ _ _ _ h1).2
    have k2 := (find_device_state_some _ _ _ _ h2).2
    refine ⟨k1, ?_⟩
    intro heq
    subst heq
    cases hne with
    | inl h => exact h (k1.1.symm.trans k2.1)
    | inr h => exact h (k1.2.symm.trans k2.2)

/-! ## Lemmas on lookups after a store -/

theorem queue_find_store_other {α : Type} (queue : List α) (function : α → Bool)
    (store : α → α) (p : α → Bool)
    (h : ∀ x, function x = true → p x = false ∧ p (store x) = false) :
    queue_find (queue_store queue function store) p = queue_find queue p := by
  induction queue with
  | nil => rfl
  | cons data rest ih =>
    unfold queue_store
    by_cases hd : function data = true
    · have := h data hd
      simp [queue_find, hd, List.find?_cons, this.1, this.2]
    · simp only [queue_find] at ih
      simp [queue_find, hd, List.find?_cons, ih]

theorem queue_find_store_map {α : Type} (queue : List α) (function : α → Bool)
    (store : α → α) (h : ∀ x, function x = true → function (store x) = true) :
    queue_find (queue_store queue function store) function =
      (queue_find queue function).map store := by
  induction queue with
  | nil => rfl
  | cons data rest ih =>
    unfold queue_store
    by_cases hd : function data = true
    · simp [queue_find, hd, List.find?_cons, h data hd]
    · simp only [queue_find] at ih
      simp [queue_find, hd, List.find?_cons, ih]

/-- A store through the peer-entry pointer of one key that keeps the key, and
keeps what the entry answers for `handle'` when asked under that same key,
keeps every lookup of `handle'`. -/
theorem lookup_device_state_store (device_states : List device_state)
    (bdaddr : bdaddr_t) (bdaddr_type : Nat) (store : device_state → device_state)
    (bdaddr' : bdaddr_t) (bdaddr_type' : Nat) (handle' : Nat)
    (hk : ∀ ds, (store ds).bdaddr = ds.bdaddr ∧ (store ds).bdaddr_type = ds.bdaddr_type)
    (hc : (bdaddr' = bdaddr ∧ bdaddr_type' = bdaddr_type) →
      ∀ ds, find_ccc_state (store ds) handle' = find_ccc_state ds handle') :
    (find_device_state (device_state_store device_states bdaddr bdaddr_type store)
        bdaddr' bdaddr_type').bind (fun ds => find_ccc_state ds handle') =
      (find_device_state device_states bdaddr' bdaddr_type').bind
        (fun ds => find_ccc_state ds handle') := by
  by_cases heq : bdaddr' = bdaddr ∧ bdaddr_type' = bdaddr_type
  · obtain ⟨h1, h2⟩ := heq
    subst h1 h2
    have hm : find_device_state (device_state_store device_states bdaddr' bdaddr_type' store)
        bdaddr' bdaddr_type' =
        (find_device_state device_states bdaddr' bdaddr_type').map store := by
      apply queue_find_store_map
      intro x hx
      rw [dev_state_match_iff] at hx ⊢
      exact ⟨(hk x).1.trans hx.1, (hk x).2.trans hx.2⟩
    rw [hm]
    cases find_device_state device_states bdaddr' bdaddr_type' with
    | none => rfl
    | some ds => exact hc ⟨rfl, rfl⟩ ds
  · have hm : find_device_state (device_state_store device_states bdaddr bdaddr_type store)
        bdaddr' bdaddr_type' = find_device_state device_states bdaddr' bdaddr_type' := by
      apply queue_find_store_other
      intro x hx
      rw [dev_state_match_iff] at hx
      have hx' : ¬ (x.bdaddr = bdaddr' ∧ x.bdaddr_type = bdaddr_type') := by
        rintro ⟨e1, e2⟩
        exact heq ⟨e1.symm.trans hx.1, e2.symm.trans hx.2⟩
      have hs' : ¬ ((store x).bdaddr = bdaddr' ∧ (store x).bdaddr_type = bdaddr_type') := by
        rw [(hk x).1, (hk x).2]
        exact hx'
      constructor
      · rw [← Bool.not_eq_true, dev_state_match_iff]
        exact hx'
      · rw [← Bool.not_eq_true, dev_state_match_iff]
        exact hs'
    rw [hm]

theorem lookup_get_device_state (device_states : List device_state)
    (bdaddr : bdaddr_t) (bdaddr_type : Nat) (bdaddr' : bdaddr_t) (bdaddr_type' : Nat)
    (handle' : Nat) :
    (find_device_state (get_device_state device_states bdaddr bdaddr_type).1
        bdaddr' bdaddr_type').bind (fun ds => find_ccc_state ds handle') =
      (find_device_state device_states bdaddr' bdaddr_type').bind
        (fun ds => find_ccc_state ds handle') := by
  unfold get_device_state
  cases hfd : find_device_state device_states bdaddr bdaddr_type with
  | some ds => rfl
  | none =>
    simp only
    cases hf' : find_device_state device_states bdaddr' bdaddr_type' with
    | some ds' =>
      have hsome : find_device_state
          (queue_push_tail device_states (device_state_create bdaddr bdaddr_type))
          bdaddr' bdaddr_type' = some ds' :=
        queue_find_push_tail_some _ _ _ _ hf'
      rw [hsome]
    | none =>
      by_cases hm : dev_state_match (device_state_create bdaddr bdaddr_type)
          ⟨bdaddr', bdaddr_type'⟩ = true
      · have hsome : find_device_state
            (queue_push_tail device_states (device_state_create bdaddr bdaddr_type))
            bdaddr' bdaddr_type' = some (device_state_create bdaddr bdaddr_type) :=
          queue_find_push_tail_none _ _ _ hf' hm
        rw [hsome]
        simp [find_ccc_state, queue_find, device_state_create]
      · have hnone : find_device_state
            (queue_push_tail device_states (device_state_create bdaddr bdaddr_type))
            bdaddr' bdaddr_type' = none := by
          simp only [find_device_state, queue_find] at hf'
          simp [find_device_state, queue_find, queue_push_tail, List.find?_append, hf', hm]
        rw [hnone]

theorem find_ccc_state_push_other (ds : device_state) (ccc : ccc_state) (handle' : Nat)
    (hne : ccc.handle ≠ handle') :
    find_ccc_state { ds with ccc_states := queue_push_tail ds.ccc_states ccc } handle' =
      find_ccc_state ds handle' := by
  simp only [find_ccc_state, queue_find, queue_push_tail, List.find?_append]
  cases List.find? (fun c => ccc_state_match c handle') ds.ccc_states with
  | some c => rfl
  | none => simp [ccc_state_match, hne]

theorem find_ccc_state_store_other (ds : device_state) (handle handle' : Nat)
    (store : ccc_state → ccc_state) (hs : ∀ ccc, (store ccc).handle = ccc.handle)
    (hne : handle' ≠ handle) :
    find_ccc_state
        { ds with
          ccc_states := queue_store ds.ccc_states
            (fun ccc => ccc_state_match ccc handle) store } handle' =
      find_ccc_state ds handle' := by
  simp only [find_ccc_state]
  apply queue_find_store_other
  intro x hx
  have hxh : x.handle = handle := by simpa [ccc_state_match] using hx
  constructor
  · simp only [ccc_state_match, beq_eq_false_iff_ne, ne_eq, hxh]
    exact fun h => hne h.symm
  · simp only [ccc_state_match, beq_eq_false_iff_ne, ne_eq, hs, hxh]
    exact fun h => hne h.symm

theorem lookup_get_ccc_state (device_states : List device_state)
    (bdaddr : bdaddr_t) (bdaddr_type : Nat) (handle : Nat)
    (bdaddr' : bdaddr_t) (bdaddr_type' : Nat) (handle' : Nat)
    (hne : bdaddr' ≠ bdaddr ∨ bdaddr_type' ≠ bdaddr_type ∨ handle' ≠ handle) :
    (find_device_state (get_ccc_state device_states bdaddr bdaddr_type handle).1
        bdaddr' bdaddr_type').bind (fun ds => find_ccc_state ds handle') =
      (find_device_state device_states bdaddr' bdaddr_type').bind
        (fun ds => find_ccc_state ds handle') := by
  have h1 := lookup_get_device_state device_states bdaddr bdaddr_type
    bdaddr' bdaddr_type' handle'
  unfold get_ccc_state
  generalize get_device_state device_states bdaddr bdaddr_type = r at h1
  obtain ⟨T1, dev⟩ := r
  simp only at h1 ⊢
  cases hfc : find_ccc_state dev handle with
  | some ccc => exact h1
  | none =>
    simp only
    rw [← h1]
    apply lookup_device_state_store
    · intro ds
      exact ⟨rfl, rfl⟩
    · rintro ⟨e1, e2⟩ ds
      have hh : handle' ≠ handle := by
        rcases hne with h | h | h
        · exact absurd e1 h
        · exact absurd e2 h
        · exact h
      exact find_ccc_state_push_other ds _ handle' (fun h => hh h.symm)

theorem lookup_ccc_state_store (device_states : List device_state)
    (bdaddr : bdaddr_t) (bdaddr_type : Nat) (handle : Nat)
    (store : ccc_state → ccc_state) (hs : ∀ ccc, (store ccc).handle = ccc.handle)
    (bdaddr' : bdaddr_t) (bdaddr_type' : Nat) (handle' : Nat)
    (hne : bdaddr' ≠ bdaddr ∨ bdaddr_type' ≠ bdaddr_type ∨ handle' ≠ handle) :
    (find_device_state (ccc_state_store device_states bdaddr bdaddr_type handle store)
        bdaddr' bdaddr_type').bind (fun ds => find_ccc_state ds handle') =
      (find_device_state device_states bdaddr' bdaddr_type').bind
        (fun ds => find_ccc_state ds handle') := by
  unfold ccc_state_store
  apply lookup_device_state_store
  · intro ds
    exact ⟨rfl, rfl⟩
  · rintro ⟨e1, e2⟩ ds
    have hh : handle' ≠ handle := by
      rcases hne with h | h | h
      · exact absurd e1 h
      · exact absurd e2 h
      · exact h
    exact find_ccc_state_store_other ds handle handle' store hs hh

/-- C16. Peer isolation of CCC writes: after a successful `gatt_ccc_write_cb`
by the peer of key `(bdaddr, bdaddr_type)` on `handle`, looking up the peer
entry of any key and then its CCC entry for any handle gives what it gave
before (absent, or the same entry) unless both the key and the handle are
those of the write; for these the lookup gives the entry of `handle` with the
two bytes written. -/
theorem ccc_write_peer_isolation (device_states : List device_state) (handle offset : Nat)
    (value : Option (List Nat)) (len : Nat) (att : bt_att)
    (bdaddr : bdaddr_t) (bdaddr_type : Nat)
    (hdst : get_dst_info att = some (bdaddr, bdaddr_type))
    (hok : (gatt_ccc_write_cb device_states handle offset value len att).2 = 0) :
    (∀ (bdaddr' : bdaddr_t) (bdaddr_type' handle' : Nat),
      (bdaddr' ≠ bdaddr ∨ bdaddr_type' ≠ bdaddr_type ∨ handle' ≠ handle) →
      (find_device_state (gatt_ccc_write_cb device_states handle offset value len att).1
          bdaddr' bdaddr_type').bind (fun ds => find_ccc_state ds handle') =
        (find_device_state device_states bdaddr' bdaddr_type').bind
          (fun ds => find_ccc_state ds handle')) ∧
    ∃ v, value = some v ∧
      (find_device_state (gatt_ccc_write_cb device_states handle offset value len att).1
          bdaddr bdaddr_type).bind (fun ds => find_ccc_state ds handle) =
        some { handle := handle, value0 := v.getD 0 0, value1 := v.getD 1 0 } := by
  cases value with
  | none => simp [gatt_ccc_write_cb, BT_ATT_ERROR_INVALID_ATTRIBUTE_VALUE_LEN] at hok
  | some v =>
    by_cases hlen : len = 2
    · by_cases hoff : offset > 2
      · simp [gatt_ccc_write_cb, hlen, hoff, BT_ATT_ERROR_INVALID_OFFSET] at hok
      · have hw : gatt_ccc_write_cb device_states handle offset (some v) len att =
            (ccc_state_store (get_ccc_state device_states bdaddr bdaddr_type handle).1
              bdaddr bdaddr_type handle
              (fun ccc => { ccc with value0 := v.getD 0 0, value1 := v.getD 1 0 }), 0) := by
          simp [gatt_ccc_write_cb, hlen, hoff, hdst]
        rw [hw]
        refine ⟨?_, v, rfl, ?_⟩
        · intro bdaddr' bdaddr_type' handle' hne
          exact (lookup_ccc_state_store
            (get_ccc_state device_states bdaddr bdaddr_type handle).1 bdaddr bdaddr_type
            handle (fun ccc => { ccc with value0 := v.getD 0 0, value1 := v.getD 1 0 })
            (fun _ => rfl) bdaddr' bdaddr_type' handle' hne).trans
            (lookup_get_ccc_state _ _ _ _ _ _ _ hne)
        · obtain ⟨ds, hd, hc⟩ := get_ccc_state_found device_states bdaddr bdaddr_type handle
          have hh : (get_ccc_state device_states bdaddr bdaddr_type handle).2.handle =
              handle := by
            have := List.find?_some (by simpa [find_ccc_state, queue_find] using hc)
            simpa [ccc_state_match] using this
          obtain ⟨ds', hd', hc'⟩ := find_ccc_state_store _ bdaddr bdaddr_type handle
            (fun ccc => { ccc with value0 := v.getD 0 0, value1 := v.getD 1 0 })
            ds _ hd hc hh
          simp only [hd', Option.some_bind, hc', hh]
    · simp [gatt_ccc_write_cb, hlen, BT_ATT_ERROR_INVALID_ATTRIBUTE_VALUE_LEN] at hok

/-- Witness of C16: the peer of `example_database` writes `01 00` to handle
0x0010; its entry for handle 0x0009 still reads `02 00`. -/
theorem ccc_write_peer_isolation_witness :
    (get_dst_info example_att = some (example_bdaddr, 1) ∧
      (gatt_ccc_write_cb example_database.device_states 0x10 0 (some [0x01, 0x00]) 2
        example_att).2 = 0) ∧
    (find_device_state
        (gatt_ccc_write_cb example_database.device_states 0x10 0 (some [0x01, 0x00]) 2
          example_att).1 example_bdaddr 1).bind (fun ds => find_ccc_state ds 0x09) =
      some ⟨0x09, 0x02, 0x00⟩ :=
  ⟨⟨rfl, by decide⟩,
    ((ccc_write_peer_isolation example_database.device_states 0x10 0 (some [0x01, 0x00]) 2
        example_att example_bdaddr 1 rfl (by decide)).1
      example_bdaddr 1 0x09 (Or.inr (Or.inr (by decide)))).trans (by decide)⟩

end GattDatabase
